import Mathlib

/-!
Verification development for the gemini-tui repository.

The Rust sources embedded here are:
  * src/gemini/src/utils/db_utils.rs      (persistence layer over SQLite)
  * src/gemini/src/ui/page/main_page.rs   (session controller / UI state machine)
  * src/gemini-api/src/model/mod.rs       (async conversational client)

Machine integers (timestamps, i32 sort indices, usize selections) are modelled
as Nat / Int: none of the embedded computations approach overflow.  SQLite is
modelled by an explicit statement-level semantics over a store of row lists, so
that statements the SQLite grammar rejects (the `UPDATE FROM ... SET` statement
and the `DELETE FROM gemini_conversion` statement, whose table name matches no
table created elsewhere in the repository) are represented by the error results
the `rusqlite` calls would return, and the source's handling of those results
(`?` propagation versus a discarded `let _ =`) is preserved.

Components of the repository that are not under src/ (the TextField / popup /
chat-list widgets, the TUI's version of the gemini_api client, store_utils and
the modify_title / update_db_structure database helpers) are modelled from the
spec; each such definition says so in its doc comment.
-/

namespace GeminiTui

/-- Message sender, from the view model (model/view.rs is not under src/; the
variants are the ones named by main_page.rs (`User`, `Bot`, `Never`) and
db_utils.rs (`User`, `Bot`, `Split`), matching the spec's
`User{imagePath}, Bot, Split-marker`). -/
inductive Sender where
  | User (image_path : String)
  | Bot
  | Split
  | Never
deriving DecidableEq, Repr

/-- One transcript message, from model/view.rs as used by main_page.rs:
`success` is the delivery status, `date_time` a timestamp (`Local::now()`),
modelled as an opaque Nat. -/
structure ChatMessage where
  success : Bool
  sender : Sender
  message : String
  date_time : Nat
deriving DecidableEq, Repr

/- ------------------------------------------------------------------ -/
/-! ## Persistence layer: db_utils.rs over a modelled SQLite store -/

/-- Row of the `gemini_conversation` table. -/
structure ConversationRow where
  conversation_id : String
  conversation_title : String
  conversation_start_time : Nat
  conversation_modify_time : Nat
deriving DecidableEq, Repr

/-- Row of the `gemini_message_record` table. -/
structure MessageRow where
  record_id : String
  conversation_id : String
  record_content : String
  record_time : Nat
  record_sender : String
  sort_index : Int
deriving DecidableEq, Repr

/-- Row of the `gemini_image_record` table. -/
structure ImageRow where
  image_record_id : String
  record_id : String
  image_path : String
  image_type : String
  image_base64 : String
deriving DecidableEq, Repr

/-- The SQLite database reached through the shared connection, plus the state
of the `foreign_keys` pragma. -/
structure Store where
  conversations : List ConversationRow
  messages : List MessageRow
  images : List ImageRow
  foreign_keys_on : Bool
deriving DecidableEq, Repr

/-- Fresh empty database. -/
def Store.empty : Store := ⟨[], [], [], false⟩

/-- Modelled from the spec: the migration file migrations/20240229_create.sql
is not under src/.  The table names are the ones every query in db_utils.rs
reads and writes (`gemini_conversation`, `gemini_message_record`,
`gemini_image_record`); per §4.5 deleting a conversation cascades to its
dependent records. -/
def schema_tables : List String :=
  ["gemini_conversation", "gemini_message_record", "gemini_image_record"]

/-- The SQL statements issued by db_utils.rs, abstracted by their effect. -/
inductive DbStmt where
  | pragma_fk (b : Bool)
  | insert_conversation (row : ConversationRow)
  | update_from_conversation (modify_time : Nat) (conversation_id : String)
  | insert_message (row : MessageRow)
  | insert_image (row : ImageRow)
  | delete_conversation_from (table : String) (conversation_id : String)
deriving DecidableEq, Repr

/-- Cascade deletion of a conversation: removes the conversation row and, when
the foreign_keys pragma is on, its message rows and their image rows. -/
def Store.delete_cascade (id : String) (s : Store) : Store :=
  let gone := (s.messages.filter (fun m => m.conversation_id == id)).map (fun m => m.record_id)
  { s with
    conversations := s.conversations.filter (fun r => !(r.conversation_id == id)),
    messages := if s.foreign_keys_on then
        s.messages.filter (fun m => !(m.conversation_id == id))
      else s.messages,
    images := if s.foreign_keys_on then
        s.images.filter (fun i => !(gone.contains i.record_id))
      else s.images }

/-- Semantics of one statement, as `Connection::execute` would report it.  The
`UPDATE FROM gemini_conversation SET ...` text of db_utils.rs line 159 is not
valid SQLite (`FROM` is a reserved keyword and cannot stand where the table
name belongs), so executing it returns a syntax error and changes nothing; a
`DELETE` naming a table the schema does not define returns a no-such-table
error and changes nothing. -/
def Store.execStmt (s : Store) : DbStmt → Except String Store
  | .pragma_fk b => .ok { s with foreign_keys_on := b }
  | .insert_conversation row => .ok { s with conversations := s.conversations ++ [row] }
  | .update_from_conversation _ _ => .error "near FROM: syntax error"
  | .insert_message row => .ok { s with messages := s.messages ++ [row] }
  | .insert_image row => .ok { s with images := s.images ++ [row] }
  | .delete_conversation_from table id =>
      if table == "gemini_conversation" then .ok (s.delete_cascade id)
      else if schema_tables.contains table then .ok s
      else .error ("no such table: " ++ table)

/-- Semantics of `Connection::execute_batch`: statements run in order, stopping
at the first error. -/
def Store.execute_batch (s : Store) : List DbStmt → Except String Store
  | [] => .ok s
  | stmt :: rest => do
      let s2 ← s.execStmt stmt
      s2.execute_batch rest

/-- Keep the store when a discarded (`let _ =`) statement failed. -/
def or_keep (r : Except String Store) (s : Store) : Store :=
  match r with
  | .ok s2 => s2
  | .error _ => s

/-- The existence probe of save_conversation: `SELECT conversation_id FROM
gemini_conversation WHERE conversation_id = ?1`, read through `query_row` with
`Ok(!conversation_id.is_empty())` and `unwrap_or_default()` when no row
matches. -/
def exists_conversation (s : Store) (id : String) : Bool :=
  match s.conversations.find? (fun r => r.conversation_id == id) with
  | some r => !r.conversation_id.isEmpty
  | none => false

/-- Sort indices stored for one conversation, in insertion order. -/
def sort_indices (s : Store) (c : String) : List Int :=
  (s.messages.filter (fun m => m.conversation_id == c)).map (fun m => m.sort_index)

/-- SQL `MAX` over a column: `NULL` (none) on an empty table selection. -/
def sql_max : List Int → Option Int
  | [] => none
  | x :: xs => some (xs.foldl max x)

/-- The sort-index computation of save_conversation lines 166-177: the `MAX`
query always yields one row, whose `Option<i32>` value is defaulted to 0 by
`unwrap_or_default()`, after which `map_or(0, |index| index + 1)` adds one in
the `Ok` branch. -/
def next_sort_index (s : Store) (id : String) : Int :=
  (sql_max (sort_indices s id)).getD 0 + 1

/-- Embedding of db_utils.rs `save_conversation`.  `record_id` and
`image_record_id` stand for the `generate_unique_id()` (nanoid of length 10)
calls, threaded in as parameters; `image_type`/`image_base64` stand for the
payload of the `get_image_type_and_base64_string(image_path)` call that the
source unwraps on line 195.  That unwrap panics — aborting the process — when
the encoding fails, so this function covers the executions in which it
succeeds; the aborting executions are modelled where the abort is observable,
by the `completion_panics` guard of the main-loop iteration, whose condition
is exactly the one under which line 195 runs on a failed encoding.  The
conversation insert and the message inserts carry `?` in the source; the
`UPDATE FROM` statement's result is discarded by a `let _ =` without `?`. -/
def save_conversation (record_id image_record_id image_type image_base64 : String)
    (conversation_id conversation_title : String) (message : ChatMessage)
    (s : Store) : Except String Store := do
  let s ←
    if !exists_conversation s conversation_id then
      s.execStmt (.insert_conversation
        ⟨conversation_id, conversation_title, message.date_time, message.date_time⟩)
    else
      pure (or_keep (s.execStmt (.update_from_conversation message.date_time conversation_id)) s)
  let idx := next_sort_index s conversation_id
  match message.sender with
  | .User image_url => do
      let s ← s.execStmt (.insert_message
        ⟨record_id, conversation_id, message.message, message.date_time, "User", idx⟩)
      if !image_url.isEmpty then
        s.execStmt (.insert_image
          ⟨image_record_id, record_id, image_url, image_type, image_base64⟩)
      else
        pure s
  | .Bot =>
      s.execStmt (.insert_message
        ⟨record_id, conversation_id, message.message, message.date_time, "Bot", idx⟩)
  | .Split => pure s
  | .Never => pure s

/-- Embedding of db_utils.rs `delete_one`: an `execute_batch` of the pragma,
the `DELETE FROM gemini_conversion WHERE conversation_id = '...'` statement
(with the table name exactly as written in the source), and the closing
pragma. -/
def delete_one (conversation_id : String) (s : Store) : Except String Store :=
  s.execute_batch
    [ .pragma_fk true,
      .delete_conversation_from "gemini_conversion" conversation_id,
      .pragma_fk false ]

/-- Modelled from the spec: `modify_title` is imported by main_page.rs but its
body is not under src/.  Per §4.5 `rename(conversationId, newTitle)` updates
the conversation's title field only; per §7 a store write may fail
(PersistenceError), which the `fails` oracle selects. -/
def modify_title (fails : Bool) (conversation_id title : String) (s : Store) :
    Except String Store :=
  if fails then .error "persistence error"
  else .ok { s with conversations := s.conversations.map (fun r =>
    if r.conversation_id == conversation_id then { r with conversation_title := title } else r) }

/- ------------------------------------------------------------------ -/
/-! ## src/gemini-api/src/model/mod.rs: the async conversational client -/

namespace Api

/-- Role vocabulary of the request body (crate body module). -/
inductive Role where
  | User
  | Model
deriving DecidableEq, Repr

/-- One part of a paragraph: plain text (crate body module). -/
structure Part where
  text : String
deriving DecidableEq, Repr

/-- One paragraph of the content history (crate body module). -/
structure Paragraph where
  role : Role
  parts : List Part
deriving DecidableEq, Repr

/-- The async client of mod.rs.  The `reqwest::Client` handle carries no state
the embedded functions read, and is omitted. -/
structure Gemini where
  key : String
  url : String
  contents : List Paragraph
  options : Unit
deriving DecidableEq, Repr

/-- Outcome of the HTTP round trip inside `chat_conversation`, as the embedding
sees it: a response whose status `is_success()` and whose body parses to the
reply text, a response with a failure status whose error body parses to a
message, or a transport failure of `send()`.  Body parsing of the wire format
(serde_json plus the `candidates[0].content.parts[0].text` projection) is
external library behavior and is represented by the already-extracted
strings. -/
inductive SendOutcome where
  | success (response_text : String)
  | failure (error_message : String)
  | net_error (e : String)
deriving DecidableEq, Repr

/-- Embedding of mod.rs `chat_conversation` (lines 106-147): the user paragraph
is pushed optimistically; on a success-status response the model reply is
pushed and returned; on a failure-status response the pushed user paragraph is
popped (`self.contents.pop()`) before the error is raised; a `send()` transport
error propagates through `?` with the pushed paragraph still in place. -/
def chat_conversation (g : Gemini) (content : String) (out : SendOutcome) :
    Gemini × Except String String :=
  let g1 : Gemini := { g with contents := g.contents ++ [⟨Role.User, [⟨content⟩]⟩] }
  match out with
  | .success t => ({ g1 with contents := g1.contents ++ [⟨Role.Model, [⟨t⟩]⟩] }, .ok t)
  | .failure m => ({ g1 with contents := g1.contents.dropLast }, .error m)
  | .net_error e => (g1, .error e)

end Api

/- ------------------------------------------------------------------ -/
/-! ## The TUI's collaborators that are not under src/ (spec-modelled) -/

/-- Modelled from the spec: the body types of the gemini_api version the TUI
links against (`gemini_api::body::{Content, Part, Role}`) are not under src/;
the variants are the ones main_page.rs constructs (`Part::Text`,
`Part::InlineData`, `Role::User`, `Role::Model`, `Content { parts, role }`). -/
inductive ContentPart where
  | Text (t : String)
  | InlineData (mime_type data : String)
deriving DecidableEq, Repr

/-- Role of a content paragraph in the TUI client's history. -/
inductive ContentRole where
  | User
  | Model
deriving DecidableEq, Repr

/-- A content paragraph of the TUI client's history (role is optional, as in
the source's `Content { parts, role }` with `role : Option<Role>`). -/
structure Content where
  parts : List ContentPart
  role : Option ContentRole
deriving DecidableEq, Repr

/-- Modelled from the spec: the TUI's `gemini_api::model::Gemini` (with
`model`, `system_instruction`, `send_simple_message`, `send_image_message`,
`new_default_model`, `start_chat`) is not the mod.rs client under src/.  Per
§6 it carries credential, model identifier, generation options, system
instruction and a content history; generation options are opaque to every
claim and are modelled as Unit. -/
structure Gemini where
  key : String
  model : String
  contents : List Content
  options : Unit
  system_instruction : Option String
deriving DecidableEq, Repr

/-- Client rebuild, as called by main_page.rs: fresh handle with the given
credential, model, history and options (system instruction set separately). -/
def Gemini.rebuild (key model : String) (contents : List Content) (options : Unit) : Gemini :=
  ⟨key, model, contents, options, none⟩

/-- Setter for the system instruction. -/
def Gemini.set_system_instruction (g : Gemini) (s : String) : Gemini :=
  { g with system_instruction := some s }

/-- Modelled from the spec: default-model construction (empty history). -/
def Gemini.new_default_model (key : String) : Gemini :=
  ⟨key, "gemini-1.5-flash", [], (), none⟩

/-- Key codes of the crossterm events main_page.rs matches on. -/
inductive KeyCode where
  | Char (c : Char)
  | F (n : Nat)
  | Esc
  | Tab
  | Enter
  | Backspace
  | Delete
  | Left
  | Right
  | Up
  | Down
  | Home
  | End
  | Other
deriving DecidableEq, Repr

/-- A key press event: code plus whether the CONTROL modifier is held (the
only modifier the source tests). -/
structure KeyEvent where
  code : KeyCode
  ctrl : Bool
deriving DecidableEq, Repr

/-- Modelled from the spec: the TextField widget is not under src/; per §4.2
and §4.3 it is a single-line editable buffer.  Content plus a cursor
position. -/
structure TextField where
  content : String
  cursor : Nat
deriving DecidableEq, Repr

/-- Fresh text field holding `s`, cursor at the end. -/
def TextField.mk_new (s : String) : TextField := ⟨s, s.length⟩

/-- Empty the field (`clear`). -/
def TextField.clear (_t : TextField) : TextField := ⟨"", 0⟩

/-- Read the buffer (`get_content`). -/
def TextField.get_content (t : TextField) : String := t.content

/-- Insert a character at the cursor (`enter_char`). -/
def TextField.enter_char (t : TextField) (c : Char) : TextField :=
  ⟨⟨t.content.data.take t.cursor ++ [c] ++ t.content.data.drop t.cursor⟩, t.cursor + 1⟩

/-- Delete the character before the cursor (`delete_pre_char`). -/
def TextField.delete_pre_char (t : TextField) : TextField :=
  if t.cursor = 0 then t
  else ⟨⟨t.content.data.take (t.cursor - 1) ++ t.content.data.drop t.cursor⟩, t.cursor - 1⟩

/-- Delete the character at the cursor (`delete_suf_char`). -/
def TextField.delete_suf_char (t : TextField) : TextField :=
  ⟨⟨t.content.data.take t.cursor ++ t.content.data.drop (t.cursor + 1)⟩, t.cursor⟩

/-- Cursor one step left (`move_cursor_left`). -/
def TextField.move_left (t : TextField) : TextField := { t with cursor := t.cursor - 1 }

/-- Cursor one step right (`move_cursor_right`). -/
def TextField.move_right (t : TextField) : TextField :=
  { t with cursor := min (t.cursor + 1) t.content.length }

/-- Cursor to start (`home_of_cursor`). -/
def TextField.home_of_cursor (t : TextField) : TextField := { t with cursor := 0 }

/-- Cursor to end (`end_of_cursor`). -/
def TextField.end_of_cursor (t : TextField) : TextField := { t with cursor := t.content.length }

/-- Result of the path-entry popup's key handling, as matched by
main_page.rs: commit with the entered text, cancel, or nothing. -/
inductive InputPopupHandleEvent where
  | Save (s : String)
  | Cancel
  | Nothing
deriving DecidableEq, Repr

/-- Modelled from the spec: the path-entry popup widget (InputPopup) is not
under src/; per §4.2 it is a single-line editable field where Enter commits
and Esc cancels.  Width/height are layout-only. -/
structure InputPopup where
  field : TextField
  width : Nat
  height : Nat
deriving DecidableEq, Repr

/-- Popup construction (`InputPopup::new(content, width, height)`). -/
def InputPopup.mk_new (s : String) (w h : Nat) : InputPopup := ⟨TextField.mk_new s, w, h⟩

/-- Modelled from the spec (§4.2): the popup's own key handling.  Enter
commits the buffer, Esc cancels, editing keys mutate only the buffer. -/
def InputPopup.handle_key (p : InputPopup) (k : KeyEvent) : InputPopup × InputPopupHandleEvent :=
  match k.code with
  | .Enter => (p, .Save p.field.content)
  | .Esc => (p, .Cancel)
  | .Char c => if k.ctrl then (p, .Nothing) else ({ p with field := p.field.enter_char c }, .Nothing)
  | .Backspace => ({ p with field := p.field.delete_pre_char }, .Nothing)
  | .Left => ({ p with field := p.field.move_left }, .Nothing)
  | .Right => ({ p with field := p.field.move_right }, .Nothing)
  | _ => (p, .Nothing)

/-- Modelled from the spec (§4.2): the delete-confirmation dialog widget is not
under src/; it is a two-button choice where Tab cycles the selected button and
Enter commits. -/
structure DeletePopup where
  confirm_selected : Bool
deriving DecidableEq, Repr

/-- Dialog default (`DeletePopup::default()`): the non-destructive button. -/
def DeletePopup.mk_default : DeletePopup := ⟨false⟩

/-- Commit: report whether the confirm button is selected (`press`). -/
def DeletePopup.press (p : DeletePopup) : Bool := p.confirm_selected

/-- Cycle the selected button (`next_button`). -/
def DeletePopup.next_button (p : DeletePopup) : DeletePopup := ⟨!p.confirm_selected⟩

/-- An image record attached to a loaded message record (model/db.rs is not
under src/; fields as read by main_page.rs and db_utils.rs). -/
structure ImageRecord where
  image_record_id : String
  record_id : String
  image_path : String
  image_type : String
  image_base64 : String
deriving DecidableEq, Repr

/-- A loaded message record of a stored conversation, as consumed by the
chat-list load branch of main_page.rs. -/
structure MessageRecord where
  conversation_id : String
  record_id : String
  record_content : String
  record_time : Nat
  record_sender : Sender
  sort_index : Int
  image_record : Option ImageRecord
deriving DecidableEq, Repr

/-- A stored conversation together with its loaded records (the `Conversation`
model type), as consumed by the chat-list load branch. -/
structure ConversationDetail where
  conversation_id : String
  conversation_title : String
  conversation_start_time : Nat
  conversation_modify_time : Nat
  conversation_records : List MessageRecord
deriving DecidableEq, Repr

/-- One entry of the sidebar conversation list. -/
structure ChatItem where
  conversation_id : String
  conversation_title : String
deriving DecidableEq, Repr

/-- Modelled from the spec: the chat-list widget (ChatItemListScrollProps) is
not under src/.  The fields main_page.rs reads and writes: the sidebar
visibility flag (`show` in the source; `shown` here because `show` is a Lean
keyword), the selected index, the delete-confirmation dialog slot, and the
listed conversations. -/
structure ChatItemListScrollProps where
  shown : Bool
  selected_conversation : Nat
  items : List ChatItem
  popup_delete_confirm_dialog : Option DeletePopup
deriving DecidableEq, Repr

/-- Component default (`Default` derive: bools false, collections empty). -/
def ChatItemListScrollProps.mk_default : ChatItemListScrollProps := ⟨false, 0, [], none⟩

/-- Modelled from the spec: move the list selection up (`prev_item`). -/
def ChatItemListScrollProps.prev_item (l : ChatItemListScrollProps) : ChatItemListScrollProps :=
  { l with selected_conversation := l.selected_conversation - 1 }

/-- Modelled from the spec: move the list selection down (`next_item`). -/
def ChatItemListScrollProps.next_item (l : ChatItemListScrollProps) : ChatItemListScrollProps :=
  if l.selected_conversation + 1 < l.items.length then
    { l with selected_conversation := l.selected_conversation + 1 }
  else l

/-- Modelled from the spec: `delete_item` removes the selected conversation
from the list, instructs the persistence layer to delete it (best-effort: the
store is kept unchanged when `delete_one` reports an error), and returns the
deleted id. -/
def ChatItemListScrollProps.delete_item (l : ChatItemListScrollProps) (s : Store) :
    String × ChatItemListScrollProps × Store :=
  let sel := l.selected_conversation
  let id := ((l.items.get? sel).map (fun i => i.conversation_id)).getD ""
  let l2 := { l with items := l.items.take sel ++ l.items.drop (sel + 1) }
  (id, l2, or_keep (delete_one id s) s)

/-- The transcript widget (ChatShowScrollProps): the chat history plus scroll
state, per the fields main_page.rs reads and writes (widget itself not under
src/). -/
structure ChatShowScrollProps where
  chat_history : List ChatMessage
  scroll_offset : Nat
  chat_history_area_height : Nat
deriving DecidableEq, Repr

/-- Component default. -/
def ChatShowScrollProps.mk_default : ChatShowScrollProps := ⟨[], 0, 0⟩

/-- The focus targets, in the cyclic order fixed by the `FromRepr` derive. -/
inductive MainFocusComponent where
  | InputField
  | NewChatButton
  | ChatItemList
  | SettingButton
  | ChatShow
deriving DecidableEq, Repr

/-- Discriminant of a focus target (`as usize` on the derive). -/
def MainFocusComponent.toIdx : MainFocusComponent → Nat
  | .InputField => 0
  | .NewChatButton => 1
  | .ChatItemList => 2
  | .SettingButton => 3
  | .ChatShow => 4

/-- Inverse of the discriminant (`from_repr(..).unwrap()`; the argument is
always below the variant count at the call site). -/
def MainFocusComponent.fromIdx : Nat → MainFocusComponent
  | 0 => .InputField
  | 1 => .NewChatButton
  | 2 => .ChatItemList
  | 3 => .SettingButton
  | _ => .ChatShow

/-- The response status field: none, or a failure with its message. -/
inductive ResponseStatus where
  | None
  | Failed (msg : String)
deriving DecidableEq, Repr

/-- The request descriptor sent over the submit channel. -/
inductive ChatType where
  | Simple (message : String)
  | Image (message : String) (image_path : String)
deriving DecidableEq, Repr

/-- Backend error as seen by the completion handler: `anyhow::Error` either
downcasts to the `String` message the api crate bails with, or does not. -/
inductive ApiError where
  | StringMsg (msg : String)
  | Other
deriving DecidableEq, Repr

/-- The top-level window: the main session, or the settings page.  Modelled
from the spec: setting_page.rs is not under src/; the two flags main_page.rs
reads (`should_exit`, `update`) stand for its state. -/
inductive CurrentWindows where
  | MainWindow
  | SettingWindow (setting_exit setting_update : Bool)
deriving DecidableEq, Repr

/-- The persisted configuration (store_utils.rs is not under src/; fields as
read by `restore_or_new_gemini`). -/
structure StoreData where
  key : String
  model : String
  system_instruction : Option String
  options : Unit
  db_version : Option String
deriving DecidableEq, Repr

/-- The UI struct of main_page.rs: the active session's full state. -/
structure UIState where
  receiving_message : Bool
  response_status : ResponseStatus
  should_exit : Bool
  gemini : Option Gemini
  focus_component : MainFocusComponent
  input_field_component : TextField
  current_windows : CurrentWindows
  image_path : Option String
  title : String
  conversation_id : String
  gen_title_ing : Bool
  db_version : Option String
  title_editor_input_field : Option TextField
  image_url_input_popup : Option InputPopup
  chat_item_list : ChatItemListScrollProps
  chat_show : ChatShowScrollProps
deriving DecidableEq, Repr

/-- The `Default` derive for UI. -/
def defaultUI : UIState :=
  ⟨false, .None, false, none, .InputField, ⟨"", 0⟩, .MainWindow, none, "", "",
   false, none, none, none, ChatItemListScrollProps.mk_default, ChatShowScrollProps.mk_default⟩

/-- External inputs of the key-handling paths whose implementations live
outside src/: the configuration file (store_utils `read_config`), the
`GEMINI_KEY` environment variable, the outcome of a `modify_title` store
write, the conversation the chat-list widget's `rebuild` returns for the
selected entry, and the image cache / image file codecs
(`read_image_cache`, `get_image_type_and_base64_string`). -/
structure KeyExt where
  cfg : Option StoreData
  env_key : Option String
  rename_fails : Bool
  rebuilt : Option ConversationDetail
  read_cache : String → Option (String × String)
  encode_file : String → Option (String × String)

/-- Is the attached image path empty (`blank_image`)? -/
def UIState.blank_image (st : UIState) : Bool :=
  match st.image_path with
  | some p => p.isEmpty
  | none => true

/-- Open the path-entry popup if none is open (`show_image_input`). -/
def UIState.show_image_input (st : UIState) : UIState :=
  if st.image_url_input_popup.isNone then
    { st with image_url_input_popup := some (InputPopup.mk_new (st.image_path.getD "") 50 3) }
  else st

/-- Build a fresh client from a credential (`init_gemini`): default model,
default options, empty system instruction, empty history.  The `save_config`
result is discarded in the source and the configuration file is outside the
modelled store. -/
def UIState.init_gemini (st : UIState) (key : String) : UIState :=
  { st with gemini := some ((Gemini.new_default_model key).set_system_instruction "") }

/-- Embedding of `restore_or_new_gemini`: rebuild from the configuration file
when it reads, keeping the live history if a client exists (and loading the
stored database version when none did); otherwise fall back to the provided
key, then to the environment variable. -/
def UIState.restore_or_new_gemini (st : UIState) (cfg : Option StoreData)
    (env_key : Option String) (key : Option String) : UIState :=
  match cfg with
  | some store_data =>
      match st.gemini with
      | some gemini_origin =>
          { st with gemini := some ((Gemini.rebuild store_data.key store_data.model
              gemini_origin.contents store_data.options).set_system_instruction
              (store_data.system_instruction.getD "")) }
      | none =>
          { st with
            gemini := some ((Gemini.rebuild store_data.key store_data.model
              [] store_data.options).set_system_instruction
              (store_data.system_instruction.getD "")),
            db_version := store_data.db_version }
  | none =>
      match key with
      | some k => st.init_gemini k
      | none =>
          match env_key with
          | some k => st.init_gemini k
          | none => st

/-- Embedding of `show_and_hide_sidebar`: when the sidebar is visible and the
focus sits on one of its components, focus falls back to the input field;
then the visibility flag is toggled. -/
def UIState.show_and_hide_sidebar (st : UIState) : UIState :=
  let st :=
    if st.chat_item_list.shown then
      { st with focus_component :=
          match st.focus_component with
          | .ChatItemList | .NewChatButton | .SettingButton => .InputField
          | other => other }
    else st
  { st with chat_item_list := { st.chat_item_list with shown := !st.chat_item_list.shown } }

/-- Embedding of `next_component`: with the sidebar visible, advance cyclically
through all five targets; with it hidden, toggle between the input field and
the transcript, anything else falling back to the input field. -/
def UIState.next_component (st : UIState) : UIState :=
  if st.chat_item_list.shown then
    { st with focus_component :=
        MainFocusComponent.fromIdx ((st.focus_component.toIdx + 1) % 5) }
  else
    { st with focus_component :=
        match st.focus_component with
        | .InputField => .ChatShow
        | .ChatShow => .InputField
        | _ => .InputField }

/-- Embedding of `new_conversation`: reset the receiving flag and the error
status, rebuild the client with an empty history but the same credential,
model, options and system instruction, focus the input field, and clear input
buffer, image path, title, conversation id and transcript. -/
def UIState.new_conversation (st : UIState) : UIState :=
  let st :=
    { st with receiving_message := false, response_status := .None }
  let st :=
    match st.gemini with
    | some gemini =>
        { st with gemini := some ((Gemini.rebuild gemini.key gemini.model
            [] gemini.options).set_system_instruction
            (gemini.system_instruction.getD "")) }
    | none => st
  { st with
    focus_component := .InputField,
    input_field_component := st.input_field_component.clear,
    image_path := none,
    title := "",
    conversation_id := "",
    chat_show := ChatShowScrollProps.mk_default }

/-- Embedding of `make_title_editable`: open a title editor seeded with the
current title if none is open. -/
def UIState.make_title_editable (st : UIState) : UIState :=
  if st.title_editor_input_field.isNone then
    { st with title_editor_input_field := some (TextField.mk_new st.title) }
  else st

/-- Embedding of `save_title`: adopt the edited title, push a rename to the
store when the conversation already exists (result discarded by `let _ =`),
and close the editor. -/
def UIState.save_title (st : UIState) (rename_fails : Bool) (s : Store) : UIState × Store :=
  match st.title_editor_input_field with
  | some editor =>
      let content := editor.get_content
      let st := { st with title := content }
      let s :=
        if !st.conversation_id.isEmpty then
          or_keep (modify_title rename_fails st.conversation_id content s) s
        else s
      ({ st with title_editor_input_field := none }, s)
  | none => (st, s)

/-- Embedding of `up`: scroll the transcript up one line. -/
def UIState.scroll_up (st : UIState) : UIState :=
  { st with chat_show := { st.chat_show with
      scroll_offset := st.chat_show.scroll_offset - 1 } }

/-- Embedding of `down`: scroll the transcript down one line, clamped at
`max_scroll_offset` (the rendered history height). -/
def UIState.scroll_down (st : UIState) : UIState :=
  { st with chat_show := { st.chat_show with
      scroll_offset := min (st.chat_show.scroll_offset + 1)
        st.chat_show.chat_history_area_height } }

/-- Embedding of `open_setting_menu`: switch to a fresh settings window. -/
def UIState.open_setting_menu (st : UIState) : UIState :=
  { st with current_windows := .SettingWindow false false }

/-- Embedding of `read_image_data`: take the cached encoding of the record's
image when the cache hits, otherwise re-encode from the original path
(refreshing the cache, a file-system effect outside the modelled store) and
silently skip the image when both fail. -/
def read_image_data (ext : KeyExt) (image_record_id image_path : String)
    (parts : List ContentPart) : List ContentPart :=
  match ext.read_cache image_record_id with
  | some (image_type, image_data) => parts ++ [ContentPart.InlineData image_type image_data]
  | none =>
      match ext.encode_file image_path with
      | some (image_type, image_data) => parts ++ [ContentPart.InlineData image_type image_data]
      | none => parts

/-- Embedding of `submit_message`: with a non-empty input buffer, either
interpret it as a credential when no client exists, or append the optimistic
pending User turn, raise the receiving flag and emit the request descriptor
(image variant when an image path is attached, which is then cleared); in all
submitting branches the buffer is cleared and the transcript scrolled to the
end.  The returned option is what was sent on the chat channel. -/
def UIState.submit_message (st : UIState) (ext : KeyExt) (now : Nat) :
    UIState × Option ChatType :=
  let image_path := st.image_path.getD ""
  if !st.input_field_component.get_content.isEmpty then
    let content := st.input_field_component.get_content
    let (st, sent) :=
      if st.gemini.isNone then
        (st.restore_or_new_gemini ext.cfg ext.env_key (some content), none)
      else
        let st := { st with
          chat_show := { st.chat_show with
            chat_history := st.chat_show.chat_history ++
              [⟨true, Sender.User image_path, content, now⟩] },
          receiving_message := true }
        if image_path.isEmpty then
          (st, some (ChatType.Simple content))
        else
          ({ st with image_path := none }, some (ChatType.Image content image_path))
    ({ st with
        input_field_component := st.input_field_component.clear,
        chat_show := { st.chat_show with
          scroll_offset := st.chat_show.chat_history_area_height } }, sent)
  else (st, none)

/- ------------------------------------------------------------------ -/
/-! ## Completion handling (the receiving branch of handle_key) -/

/-- Rust's `str::replace("\n\n", "\n")` specialised to its pattern: scan left
to right, collapsing each non-overlapping doubled newline to a single one. -/
def replace_double_newline : List Char → List Char
  | '\n' :: '\n' :: rest => '\n' :: replace_double_newline rest
  | c :: rest => c :: replace_double_newline rest
  | [] => []

/-- The `response.replace("\n\n", "\n")` step on strings. -/
def collapse_newlines (s : String) : String := ⟨replace_double_newline s.data⟩

/-- The `if response.ends_with("\n") { response[..len-1] }` step: drop one
trailing newline when present (a one-byte slice, hence one character). -/
def trim_trailing_newline (s : String) : String :=
  if s.data.getLast? = some '\n' then ⟨s.data.dropLast⟩ else s

/-- The full normalization the success branch applies to the response text. -/
def normalize_response (s : String) : String :=
  trim_trailing_newline (collapse_newlines s)

/-- The fresh values consumed by one completion: the lazily generated
conversation id and the `generate_unique_id()` record ids (each a nanoid of
length 10), plus the encoder output for the turn's attached image. -/
structure FreshIds where
  conv_id : String
  user_record_id : String
  user_image_record_id : String
  bot_record_id : String
  image_type : String
  image_base64 : String
deriving DecidableEq, Repr

/-- Modelled from the spec: the bodies of `send_simple_message` and
`send_image_message` of the TUI's client are not under src/.  Per §6 the
conversational client keeps a content history mirroring the transcript's
backend role mapping; mirroring `chat_conversation` of src/gemini-api, the
history gains the user paragraph and the model reply on success and is
unchanged on failure. -/
def Gemini.send_result_update (g : Gemini) (req : ChatType) (fresh : FreshIds)
    (result : Except ApiError String) : Gemini :=
  match result with
  | .ok resp =>
      let user_parts :=
        match req with
        | .Simple m => [ContentPart.Text m]
        | .Image m _ => [ContentPart.Text m, ContentPart.InlineData fresh.image_type fresh.image_base64]
      { g with contents := g.contents ++
          [⟨user_parts, some .User⟩, ⟨[ContentPart.Text resp], some .Model⟩] }
  | .error _ => g

/-- Embedding of the success arm of the completion match (main_page.rs lines
469-513 and, token-identical apart from the send call, 532-576): generate the
conversation id if still empty (bumping the list selection), dispatch the
title summarizer when the title is empty and none is in flight (the spawned
thread is represented by the raised flag; its result arrives as a loop
event), pop the pending User turn, persist it (`let _ =` discards the
result), push it back, then append and persist the normalized Bot turn.  The
source unwraps the popped message; the model leaves the state unchanged in
that unreachable empty-transcript case. -/
def process_success (fresh : FreshIds) (now : Nat) (response : String)
    (st : UIState) (s : Store) : UIState × Store :=
  let st :=
    if st.conversation_id.isEmpty then
      { st with
        conversation_id := fresh.conv_id,
        chat_item_list := { st.chat_item_list with
          selected_conversation := st.chat_item_list.selected_conversation + 1 } }
    else st
  let st :=
    if st.title.isEmpty && !st.gen_title_ing then { st with gen_title_ing := true } else st
  match st.chat_show.chat_history.getLast? with
  | none => (st, s)
  | some chat_message =>
      let rest := st.chat_show.chat_history.dropLast
      let s := or_keep (save_conversation fresh.user_record_id fresh.user_image_record_id
        fresh.image_type fresh.image_base64 st.conversation_id st.title chat_message s) s
      let bot : ChatMessage := ⟨true, Sender.Bot, normalize_response response, now⟩
      let s := or_keep (save_conversation fresh.bot_record_id "" "" ""
        st.conversation_id st.title bot s) s
      ({ st with chat_show := { st.chat_show with
          chat_history := (rest ++ [chat_message]) ++ [bot] } }, s)

/-- Embedding of the failure arm of the completion match (lines 516-526 and
579-589): surface the downcast error message (or "Unknown Error") in the
response status, and mark the popped last message failed.  Nothing is
persisted.  As in `process_success`, the unwrap on an empty transcript is
unreachable and modelled as leaving the state unchanged. -/
def process_failure (e : ApiError) (st : UIState) (s : Store) : UIState × Store :=
  let st := { st with response_status :=
      match e with
      | .StringMsg msg => .Failed msg
      | .Other => .Failed "Unknown Error" }
  match st.chat_show.chat_history.getLast? with
  | none => (st, s)
  | some chat_message =>
      ({ st with chat_show := { st.chat_show with
          chat_history := st.chat_show.chat_history.dropLast ++
            [{ chat_message with success := false }] } }, s)

/-- Embedding of the receiving branch of `handle_key` (lines 462-596): the
blocking `chat_rx.recv()` yields the request submitted in the previous tick,
the send call mutates the client and yields `result`, the matching arm
processes it, and the receiving flag is cleared after the match. -/
def handle_received (req : ChatType) (result : Except ApiError String)
    (fresh : FreshIds) (now : Nat) (st : UIState) (s : Store) : UIState × Store :=
  let st := { st with gemini := st.gemini.map (fun g => g.send_result_update req fresh result) }
  let (st, s) :=
    match result with
    | .ok response => process_success fresh now response st s
    | .error e => process_failure e st s
  ({ st with receiving_message := false }, s)

/- ------------------------------------------------------------------ -/
/-! ## Key routing (the non-receiving branch of handle_key) -/

/-- Embedding of `handle_title_edit_key_event`. -/
def handle_title_edit_key_event (k : KeyEvent) (rename_fails : Bool)
    (st : UIState) (s : Store) : UIState × Store :=
  match st.title_editor_input_field with
  | none => (st, s)
  | some editor =>
      let edit (f : TextField → TextField) : UIState × Store :=
        ({ st with title_editor_input_field := some (f editor) }, s)
      match k.code with
      | .Char c =>
          if k.ctrl && c = 't' then st.save_title rename_fails s
          else edit (fun t => t.enter_char c)
      | .F n => if n = 1 then st.save_title rename_fails s else (st, s)
      | .Esc => ({ st with should_exit := true }, s)
      | .Backspace => edit TextField.delete_pre_char
      | .Left => edit TextField.move_left
      | .Right => edit TextField.move_right
      | .Home => edit TextField.home_of_cursor
      | .End => edit TextField.end_of_cursor
      | .Delete => edit TextField.delete_suf_char
      | _ => (st, s)

/-- Embedding of `handle_input_key_event_common` (no popup active): clear the
error status on any key but Tab, then dispatch. -/
def handle_input_key_event_common (k : KeyEvent) (ext : KeyExt) (now : Nat)
    (st : UIState) : UIState × Option ChatType :=
  let st :=
    if k.code ≠ .Tab && st.response_status ≠ .None then
      { st with response_status := .None }
    else st
  let field (f : TextField → TextField) : UIState × Option ChatType :=
    ({ st with input_field_component := f st.input_field_component }, none)
  match k.code with
  | .Char c =>
      if k.ctrl && c = 's' then (st.show_and_hide_sidebar, none)
      else if k.ctrl && c = 'i' then (st.show_image_input, none)
      else if k.ctrl && c = 't' then (st.make_title_editable, none)
      else field (fun t => t.enter_char c)
  | .F n =>
      if n = 3 then (st.show_and_hide_sidebar, none)
      else if n = 4 then (st.show_image_input, none)
      else if n = 1 then (st.make_title_editable, none)
      else (st, none)
  | .Esc => ({ st with should_exit := true }, none)
  | .Tab => (st.next_component, none)
  | .Backspace => field TextField.delete_pre_char
  | .Enter => st.submit_message ext now
  | .Left => field TextField.move_left
  | .Right => field TextField.move_right
  | .Home => field TextField.home_of_cursor
  | .End => field TextField.end_of_cursor
  | .Delete => field TextField.delete_suf_char
  | _ => (st, none)

/-- Embedding of `handle_input_key_event`: a visible path-entry popup receives
the event first; its commit stores the entered path, its cancel closes it,
and anything else only edits the popup. -/
def handle_input_key_event (k : KeyEvent) (ext : KeyExt) (now : Nat)
    (st : UIState) : UIState × Option ChatType :=
  match st.image_url_input_popup with
  | some popup =>
      let (p2, ev) := popup.handle_key k
      match ev with
      | .Save res => ({ st with image_url_input_popup := none, image_path := some res }, none)
      | .Cancel => ({ st with image_url_input_popup := none }, none)
      | .Nothing => ({ st with image_url_input_popup := some p2 }, none)
  | none => handle_input_key_event_common k ext now st

/-- Embedding of `handle_new_chat_key_event`. -/
def handle_new_chat_key_event (k : KeyEvent) (st : UIState) : UIState :=
  match k.code with
  | .Esc => { st with should_exit := true }
  | .Char c => if k.ctrl && c = 's' then st.show_and_hide_sidebar else st
  | .F n => if n = 3 then st.show_and_hide_sidebar else st
  | .Tab => st.next_component
  | .Enter => st.new_conversation
  | _ => st

/-- Embedding of the chat-list load branch (Enter with no dialog open, lines
773-820): rebuild the client history from the stored records (role mapping
User to user and Bot to model, the split marker to none; image parts read
through the cache), reload the transcript (every reloaded record shown as
Success), adopt id and title, focus the transcript and clear the transient
input state. -/
def load_selected_conversation (ext : KeyExt) (st : UIState) : UIState :=
  match ext.rebuilt with
  | none => st
  | some conversation =>
      let st := { st with
        conversation_id := conversation.conversation_id,
        title := conversation.conversation_title }
      let contents : List Content := conversation.conversation_records.map (fun record =>
        let role : Option ContentRole :=
          match record.record_sender with
          | .User _ => some .User
          | .Bot => some .Model
          | .Never => none
          | .Split => none
        let parts := [ContentPart.Text record.record_content]
        let parts :=
          match record.image_record with
          | some image_record =>
              read_image_data ext image_record.image_record_id image_record.image_path parts
          | none => parts
        ⟨parts, role⟩)
      let st :=
        match st.gemini with
        | some gemini =>
            { st with gemini := some ((Gemini.rebuild gemini.key gemini.model
                contents gemini.options).set_system_instruction
                (gemini.system_instruction.getD "")) }
        | none => st
      { st with
        chat_show := { st.chat_show with
          chat_history := conversation.conversation_records.map (fun record =>
            ⟨true, record.record_sender, record.record_content, record.record_time⟩) },
        focus_component := .ChatShow,
        input_field_component := st.input_field_component.clear,
        image_path := none }

/-- Embedding of `handle_chat_list_key_event`.  Note which arms consult the
delete-confirmation dialog: only Enter (commit the dialog's choice, deleting
and possibly resetting the session, then close it) and Tab (cycle its
button); Esc, Ctrl-S/F3, Up, Down and Delete act on the list and global state
regardless of the dialog. -/
def handle_chat_list_key_event (k : KeyEvent) (ext : KeyExt)
    (st : UIState) (s : Store) : UIState × Store :=
  match k.code with
  | .Esc => ({ st with should_exit := true }, s)
  | .Char c => if k.ctrl && c = 's' then (st.show_and_hide_sidebar, s) else (st, s)
  | .F n => if n = 3 then (st.show_and_hide_sidebar, s) else (st, s)
  | .Enter =>
      match st.chat_item_list.popup_delete_confirm_dialog with
      | some popup =>
          if popup.press then
            let (deleted_id, l2, s2) := st.chat_item_list.delete_item s
            let st := { st with chat_item_list := l2 }
            let st := if deleted_id == st.conversation_id then st.new_conversation else st
            ({ st with chat_item_list := { st.chat_item_list with
                popup_delete_confirm_dialog := none } }, s2)
          else
            ({ st with chat_item_list := { st.chat_item_list with
                popup_delete_confirm_dialog := none } }, s)
      | none => (load_selected_conversation ext st, s)
  | .Up => ({ st with chat_item_list := st.chat_item_list.prev_item }, s)
  | .Down => ({ st with chat_item_list := st.chat_item_list.next_item }, s)
  | .Delete =>
      ({ st with chat_item_list := { st.chat_item_list with
          popup_delete_confirm_dialog := some DeletePopup.mk_default } }, s)
  | .Tab =>
      match st.chat_item_list.popup_delete_confirm_dialog with
      | some popup =>
          ({ st with chat_item_list := { st.chat_item_list with
              popup_delete_confirm_dialog := some popup.next_button } }, s)
      | none => (st.next_component, s)
  | _ => (st, s)

/-- Embedding of `handle_setting_button_key_event`. -/
def handle_setting_button_key_event (k : KeyEvent) (st : UIState) : UIState :=
  match k.code with
  | .Esc => { st with should_exit := true }
  | .Char c => if k.ctrl && c = 's' then st.show_and_hide_sidebar else st
  | .F n => if n = 3 then st.show_and_hide_sidebar else st
  | .Tab => st.next_component
  | .Enter => st.open_setting_menu
  | _ => st

/-- Embedding of `handle_chat_show_key_event`. -/
def handle_chat_show_key_event (k : KeyEvent) (st : UIState) : UIState :=
  match k.code with
  | .Char c =>
      if k.ctrl && c = 's' then st.show_and_hide_sidebar
      else if k.ctrl && c = 't' then st.make_title_editable
      else st
  | .F n =>
      if n = 3 then st.show_and_hide_sidebar
      else if n = 1 then st.make_title_editable
      else st
  | .Esc => { st with should_exit := true }
  | .Tab => st.next_component
  | .Up => st.scroll_up
  | .Down => st.scroll_down
  | _ => st

/-- Embedding of the non-receiving branch of `handle_key` (lines 599-621): a
press event is routed to the title editor when one is open, else to the
handler of the focused component.  The third component records what was sent
on the chat channel. -/
def handle_key_event (k : KeyEvent) (ext : KeyExt) (now : Nat)
    (st : UIState) (s : Store) : UIState × Store × Option ChatType :=
  if st.title_editor_input_field.isSome then
    let (st, s) := handle_title_edit_key_event k ext.rename_fails st s
    (st, s, none)
  else
    match st.focus_component with
    | .InputField =>
        let (st2, sent) := handle_input_key_event k ext now st
        (st2, s, sent)
    | .NewChatButton => (handle_new_chat_key_event k st, s, none)
    | .ChatItemList =>
        let (st2, s2) := handle_chat_list_key_event k ext st s
        (st2, s2, none)
    | .SettingButton => (handle_setting_button_key_event k st, s, none)
    | .ChatShow => (handle_chat_show_key_event k st, s, none)

/- ------------------------------------------------------------------ -/
/-! ## The main loop (run, lines 129-159) -/

/-- What one tick of the loop does after the title poll: handle a key press,
consume the completion of the outstanding round trip (the blocking receive
taken when `receiving_message` is set), see no usable event, or (in the
settings window) let the settings page step its own flags (setting_page.rs is
not under src/; modelled from the spec as its exit/update flags). -/
inductive LoopAction where
  | key (k : KeyEvent) (now : Nat)
  | recv (req : ChatType) (result : Except ApiError String) (fresh : FreshIds) (now : Nat)
  | draw_only
  | setting_step (next_exit next_update : Bool)

/-- External inputs of one loop iteration: the non-blocking title-channel
poll (`title_rx.try_recv()`), the outcome of the `modify_title` write it
triggers, whether `get_image_type_and_base64_string` succeeds for the image
this tick's completion may persist (`encode_ok`; its payload on success is
carried by the recv action's FreshIds), the collaborator oracles, and the
tick's action. -/
structure LoopTick where
  title_msg : Option String
  rename_fails : Bool
  encode_ok : Bool
  ext : KeyExt
  action : LoopAction

/-- The window dispatch of one loop iteration (the `match self.current_windows`
of run, lines 137-154): in the main window, a tick either consumes the
completion of the outstanding round trip (the blocking receive taken when
`receiving_message` is set) or handles a key press; in the settings window the
settings page runs until its exit flag is set, upon which the client is
rebuilt when the configuration changed. -/
def dispatch_window (tick : LoopTick) (st : UIState) (s : Store) : UIState × Store :=
  match st.current_windows with
  | .MainWindow =>
      if st.receiving_message then
        match tick.action with
        | .recv req result fresh now => handle_received req result fresh now st s
        | _ => (st, s)
      else
        match tick.action with
        | .key k now =>
            let (st2, s2, _sent) := handle_key_event k tick.ext now st s
            (st2, s2)
        | _ => (st, s)
  | .SettingWindow setting_exit setting_update =>
      if setting_exit then
        let st := if setting_update then st.restore_or_new_gemini tick.ext.cfg tick.ext.env_key none else st
        ({ st with current_windows := .MainWindow }, s)
      else
        match tick.action with
        | .setting_step a b => ({ st with current_windows := .SettingWindow a b }, s)
        | _ => (st, s)

/-- Does this tick's completion panic?  The persist path of a successful
completion runs save_conversation, whose User-with-image branch unwraps
`get_image_type_and_base64_string(image_path)` (db_utils.rs line 195): when
that encoding fails, the unwrap panics and the process aborts.  A tick
completes a round trip only in the main window with `receiving_message` set
and a recv action whose send result is a success; the persisted pending turn
is the last transcript entry, and the unwrap runs exactly when it is a User
turn carrying a non-empty image path. -/
def completion_panics (tick : LoopTick) (st : UIState) : Bool :=
  match st.current_windows, tick.action with
  | .MainWindow, .recv _ result _ _ =>
      st.receiving_message &&
      (match result with
       | .ok _ => true
       | .error _ => false) &&
      (match st.chat_show.chat_history.getLast? with
       | some m =>
           match m.sender with
           | .User image_url => !image_url.isEmpty
           | _ => false
       | none => false) &&
      !tick.encode_ok
  | _, _ => false

/-- The abort the unwrap at db_utils.rs line 195 produces. -/
def image_encode_panic : String :=
  "panicked: called Result::unwrap on an Err value while encoding the turn image"

/-- Embedding of one iteration of the `while !self.should_exit` loop: poll the
title channel and, when a title arrived, clear the in-flight flag, adopt the
title and persist the rename — the `modify_title(..)?` on line 135 propagates
a failure out of `run`, which the `Except` models; then dispatch on the
current window.  An iteration whose completion's persist path panics
(`completion_panics`: the unwrap of a failed image encoding at db_utils.rs
line 195) aborts the process; the abort is reported as the iteration's error
outcome — the conversation and message rows inserted before the unwrap are
committed by the dying process but observed by no later iteration of this
run, and are not modelled on this aborting path.  Terminal drawing is out of
scope (§1). -/
def run_iteration (tick : LoopTick) (st : UIState) (s : Store) :
    Except String (UIState × Store) := do
  let (st, s) ←
    match tick.title_msg with
    | some title => do
        let st := { st with gen_title_ing := false, title := title }
        let s ← modify_title tick.rename_fails st.conversation_id st.title s
        pure (st, s)
    | none => pure (st, s)
  if completion_panics tick st then
    Except.error image_encode_panic
  else
    pure (dispatch_window tick st s)

/-- The loop itself: run ticks until the exit flag is raised, the ticks run
out, or an iteration propagates an error (terminating `run`). -/
def run_loop (ticks : List LoopTick) (st : UIState) (s : Store) :
    Except String (UIState × Store) :=
  match ticks with
  | [] => .ok (st, s)
  | tick :: rest =>
      if st.should_exit then .ok (st, s)
      else do
        let (st, s) ← run_iteration tick st s
        run_loop rest st s

/- ------------------------------------------------------------------ -/
/-! ## Submit/complete rounds (the session protocol of §4.3) -/

/-- One full round of the submit/receive protocol: the text typed, the image
attached, the backend outcome, the fresh ids and timestamps consumed, and the
configuration oracles the submit path may read. -/
structure Round where
  text : String
  image : Option String
  result : Except ApiError String
  fresh : FreshIds
  submit_time : Nat
  complete_time : Nat
  cfg : Option StoreData
  env_key : Option String
deriving Repr

/-- The key-path oracles a round exposes (only the configuration sources are
read on the submit path). -/
def round_ext (r : Round) : KeyExt :=
  ⟨r.cfg, r.env_key, false, none, fun _ => none, fun _ => none⟩

/-- One round: place the text and image into the session, submit, and — when
the submit dispatched a request — consume its completion on the next tick. -/
def do_round (r : Round) (st : UIState) (s : Store) : UIState × Store :=
  let st := { st with input_field_component := TextField.mk_new r.text, image_path := r.image }
  let (st, sent) := st.submit_message (round_ext r) r.submit_time
  match sent with
  | some req => handle_received req r.result r.fresh r.complete_time st s
  | none => (st, s)

/-- A sequence of rounds within one session. -/
def do_rounds (rs : List Round) (st : UIState) (s : Store) : UIState × Store :=
  match rs with
  | [] => (st, s)
  | r :: rest =>
      let (st2, s2) := do_round r st s
      do_rounds rest st2 s2

/-- The conversation id the first successful round of the list supplies, or
the empty string when every round fails. -/
def first_success_conv_id : List Round → String
  | [] => ""
  | r :: rs =>
      match r.result with
      | .ok _ => r.fresh.conv_id
      | .error _ => first_success_conv_id rs

/-- The list `[1, 2, ..., n]` of sort indices. -/
def one_to (n : Nat) : List Int := (List.range n).map (fun i => (i : Int) + 1)

/-- One appendRecord input: the turn plus the fresh ids and encoder output its
persistence consumes. -/
structure AppendInput where
  message : ChatMessage
  record_id : String
  image_record_id : String
  image_type : String
  image_base64 : String
deriving DecidableEq, Repr

/-- Chain of `save_conversation` calls for one conversation, each discarding
the `Result` as the completion handler does. -/
def append_run (conversation_id conversation_title : String)
    (ins : List AppendInput) (s : Store) : Store :=
  match ins with
  | [] => s
  | i :: rest =>
      append_run conversation_id conversation_title rest
        (or_keep (save_conversation i.record_id i.image_record_id i.image_type
          i.image_base64 conversation_id conversation_title i.message s) s)

/-- A message sender that is an actual turn (persisted as a message row). -/
def is_turn_sender : Sender → Bool
  | .User _ => true
  | .Bot => true
  | .Split => false
  | .Never => false

/-- The focus-safety invariant of §4.1: when the sidebar is hidden, focus sits
on a component that is still rendered (the input field or the transcript). -/
abbrev SidebarInv (st : UIState) : Prop :=
  st.chat_item_list.shown = false →
    st.focus_component = .InputField ∨ st.focus_component = .ChatShow

/- ------------------------------------------------------------------ -/
/-! ## Helper lemmas -/

theorem length_ten_ne_empty (s : String) (h : s.length = 10) : s ≠ "" := by
  intro h'
  rw [h'] at h
  exact absurd h (by decide)

theorem sql_max_append (l : List Int) (a : Int) :
    sql_max (l ++ [a]) = some (match sql_max l with | none => a | some m => max m a) := by
  cases l with
  | nil => rfl
  | cons x xs => simp [sql_max, List.foldl_append]

theorem one_to_succ (n : Nat) : one_to (n + 1) = one_to n ++ [(n : Int) + 1] := by
  simp [one_to, List.range_succ]

theorem sql_max_one_to (n : Nat) :
    sql_max (one_to n) = if n = 0 then none else some (n : Int) := by
  induction n with
  | zero => rfl
  | succ m ih =>
      rw [one_to_succ, sql_max_append, ih]
      rcases Nat.eq_zero_or_pos m with hm | hm
      · subst hm; simp
      · have hm' : m ≠ 0 := Nat.pos_iff_ne_zero.mp hm
        rw [if_neg hm', if_neg (Nat.succ_ne_zero m)]
        have hmax : max (m : Int) ((m : Int) + 1) = (m : Int) + 1 :=
          max_eq_right (by omega)
        simp [hmax]

theorem next_sort_index_of_one_to (s : Store) (c : String) (n : Nat)
    (h : sort_indices s c = one_to n) : next_sort_index s c = (n : Int) + 1 := by
  unfold next_sort_index
  rw [h, sql_max_one_to]
  rcases Nat.eq_zero_or_pos n with hn | hn
  · subst hn; simp
  · rw [if_neg (Nat.pos_iff_ne_zero.mp hn)]; rfl

theorem sort_indices_messages_eq (s s2 : Store) (c : String)
    (h : s.messages = s2.messages) : sort_indices s c = sort_indices s2 c := by
  unfold sort_indices; rw [h]

theorem sort_indices_append_row (s : Store) (c : String) (row : MessageRow)
    (hc : row.conversation_id = c) :
    sort_indices { s with messages := s.messages ++ [row] } c =
      sort_indices s c ++ [row.sort_index] := by
  unfold sort_indices
  simp [List.filter_append, hc]

end GeminiTui

namespace GeminiTui

theorem sql_max_one_to_getD (n : Nat) : (sql_max (one_to n)).getD 0 = (n : Int) := by
  rw [sql_max_one_to]
  rcases Nat.eq_zero_or_pos n with h | h
  · subst h; rfl
  · rw [if_neg (Nat.pos_iff_ne_zero.mp h)]; rfl

theorem sort_indices_save_step (rid iid ity ib64 c t : String) (m : ChatMessage)
    (s : Store) (n : Nat)
    (hm : is_turn_sender m.sender = true)
    (hs : sort_indices s c = one_to n) :
    sort_indices (or_keep (save_conversation rid iid ity ib64 c t m s) s) c = one_to (n + 1) := by
  obtain ⟨succ, sender, msg, time⟩ := m
  have hnext := next_sort_index_of_one_to s c n hs
  simp only [sort_indices] at hs
  simp only [next_sort_index, sort_indices] at hnext
  cases sender with
  | Split => simp [is_turn_sender] at hm
  | Never => simp [is_turn_sender] at hm
  | User image_url =>
      cases hE : exists_conversation s c <;> cases hI : image_url.isEmpty <;>
        simp [save_conversation, hE, hI, Store.execStmt, bind, Except.bind, or_keep,
          pure, Except.pure, sort_indices, next_sort_index,
          List.filter_append, hs, hnext, one_to_succ, sql_max_one_to_getD]
  | Bot =>
      cases hE : exists_conversation s c <;>
        simp [save_conversation, hE, Store.execStmt, bind, Except.bind, or_keep,
          pure, Except.pure, sort_indices, next_sort_index,
          List.filter_append, hs, hnext, one_to_succ, sql_max_one_to_getD]

theorem append_run_sort_indices (ins : List AppendInput) (c t : String)
    (s : Store) (n : Nat)
    (hm : ∀ i ∈ ins, is_turn_sender i.message.sender = true)
    (hs : sort_indices s c = one_to n) :
    sort_indices (append_run c t ins s) c = one_to (n + ins.length) := by
  induction ins generalizing s n with
  | nil => simpa [append_run] using hs
  | cons i rest ih =>
      have hstep := sort_indices_save_step i.record_id i.image_record_id i.image_type
        i.image_base64 c t i.message s n (hm i (List.mem_cons_self i rest)) hs
      have htail : ∀ j ∈ rest, is_turn_sender j.message.sender = true :=
        fun j hj => hm j (List.mem_cons_of_mem i hj)
      have := ih _ (n + 1) htail hstep
      rw [append_run]
      rw [this]
      congr 1
      simp [List.length_cons]
      omega

/-- Claim C2 (counterexample): the very first record appended to a
conversation with no existing records is persisted with sortIndex 1, not 0 as
the claim states. -/
theorem C2_counterexample :
    sort_indices (append_run "c1" ""
      [⟨⟨true, Sender.User "", "Hello", 5⟩, "r1", "", "", ""⟩] Store.empty) "c1" = [1]
    ∧ (1 : Int) ≠ 0 :=
  ⟨rfl, by decide⟩

/-- Claim C2 (amended): persisted sortIndex values per conversation form the
strictly increasing gap-free sequence 1, 2, ..., n — starting at 1, because
the MAX query's NULL is defaulted to 0 and `map_or(0, |i| i + 1)` adds one in
the success branch; every subsequent append assigns one plus the current
maximum.  Failed rounds never call save_conversation, so the sequence is
unaffected by failed attempts. -/
theorem C2_amended (ins : List AppendInput) (c t : String) (s : Store)
    (hm : ∀ i ∈ ins, is_turn_sender i.message.sender = true)
    (hs : sort_indices s c = []) :
    sort_indices (append_run c t ins s) c = one_to ins.length := by
  have := append_run_sort_indices ins c t s 0 hm (by simpa using hs)
  simpa using this

/-- Witness for C2_amended at a concrete two-message conversation. -/
theorem C2_witness :
    sort_indices (append_run "c" "t"
      [⟨⟨true, Sender.User "", "a", 1⟩, "r1", "", "", ""⟩,
       ⟨⟨true, Sender.Bot, "b", 2⟩, "r2", "", "", ""⟩] Store.empty) "c" = one_to 2 :=
  C2_amended _ "c" "t" Store.empty (by decide) rfl

/-- Claim C5 (code bug): two save_conversation calls with the same id insert
exactly one conversation row, but the second call leaves the modification
timestamp at the first call's value (1, not 2): its
`UPDATE FROM gemini_conversation SET ...` statement is a SQLite syntax error
whose Result the source discards. -/
theorem C5_upsert_eval :
    (do
      let s1 ← save_conversation "r1" "" "" "" "c" "" ⟨true, Sender.Bot, "a", 1⟩ Store.empty
      save_conversation "r2" "" "" "" "c" "" ⟨true, Sender.Bot, "b", 2⟩ s1 :
        Except String Store) =
      .ok ⟨[⟨"c", "", 1, 1⟩],
           [⟨"r1", "c", "a", 1, "Bot", 1⟩, ⟨"r2", "c", "b", 2, "Bot", 2⟩], [], false⟩
    ∧ (1 : Nat) ≠ 2 :=
  ⟨rfl, by decide⟩

/-- Claim C6 (code bug): delete_one issues its DELETE against the table
`gemini_conversion`, which the schema does not define, so deleting a stored
conversation returns a no-such-table error and removes nothing. -/
theorem C6_delete_eval :
    delete_one "abc" ⟨[⟨"abc", "t", 0, 0⟩], [⟨"r", "abc", "x", 0, "User", 1⟩], [], false⟩ =
      .error "no such table: gemini_conversion" :=
  rfl

/-- Claim C10: the async client's history update is atomic per exchange — a
success-status response appends exactly the user paragraph followed by the
model paragraph, and a failure-status response leaves the history exactly as
it was (the optimistic user paragraph is popped before the error returns). -/
theorem C10_chat_conversation_atomic (g : Api.Gemini) (content t m : String) :
    Api.chat_conversation g content (.success t) =
      ({ g with contents := g.contents ++ [⟨.User, [⟨content⟩]⟩, ⟨.Model, [⟨t⟩]⟩] }, .ok t)
    ∧ Api.chat_conversation g content (.failure m) = (g, .error m) := by
  obtain ⟨key, url, contents, options⟩ := g
  constructor
  · simp [Api.chat_conversation]
  · simp [Api.chat_conversation, List.dropLast_concat]

theorem process_success_history (fresh : FreshIds) (now : Nat) (response : String)
    (st : UIState) (s : Store) :
    (process_success fresh now response st s).1.chat_show.chat_history =
      match st.chat_show.chat_history.getLast? with
      | none => st.chat_show.chat_history
      | some m => (st.chat_show.chat_history.dropLast ++ [m]) ++
          [⟨true, Sender.Bot, normalize_response response, now⟩] := by
  unfold process_success
  cases hc : st.conversation_id.isEmpty <;> simp [hc] <;>
    by_cases ht : st.title.isEmpty = true ∧ st.gen_title_ing = false <;> simp [ht] <;>
      cases st.chat_show.chat_history.getLast? <;> simp

/-- Claim C9: the Bot turn appended by a successful completion carries the
normalized response text: doubled newlines collapsed left to right, then one
trailing newline (if any) removed. -/
theorem C9_normalized_bot_turn (fresh : FreshIds) (now : Nat) (response : String)
    (st : UIState) (s : Store) (h : st.chat_show.chat_history ≠ []) :
    ((process_success fresh now response st s).1.chat_show.chat_history).getLast? =
      some ⟨true, Sender.Bot, normalize_response response, now⟩ := by
  rcases List.eq_nil_or_concat st.chat_show.chat_history with h0 | ⟨l, a, hconcat⟩
  · exact absurd h0 h
  · rw [process_success_history, hconcat]
    simp [List.getLast?_concat]

/-- Witness for C9 at a concrete response carrying a doubled and a trailing
newline. -/
theorem C9_witness :
    ((process_success ⟨"c000000001", "r000000001", "i000000001", "b000000001", "", ""⟩ 7
        "A\n\nB\n"
        { defaultUI with chat_show := ⟨[⟨true, Sender.User "", "Hello", 1⟩], 0, 0⟩ }
        Store.empty).1.chat_show.chat_history).getLast? =
      some ⟨true, Sender.Bot, normalize_response "A\n\nB\n", 7⟩ :=
  C9_normalized_bot_turn _ 7 "A\n\nB\n"
    { defaultUI with chat_show := ⟨[⟨true, Sender.User "", "Hello", 1⟩], 0, 0⟩ }
    Store.empty (by decide)

/-- Claim C3: a submission whose backend call fails with a string-carrying
error marks the pending User turn Failed, persists nothing (the store is
returned unchanged), leaves the conversation id unchanged, surfaces the
error's message in the response status, and clears the receiving flag. -/
theorem C3_failure_round (r : Round) (st : UIState) (s : Store) (g : Gemini) (m : String)
    (hg : st.gemini = some g) (ht : r.text ≠ "")
    (hr : r.result = .error (.StringMsg m)) :
    (do_round r st s).2 = s
    ∧ (do_round r st s).1.chat_show.chat_history =
        st.chat_show.chat_history ++ [⟨false, Sender.User (r.image.getD ""), r.text, r.submit_time⟩]
    ∧ (do_round r st s).1.conversation_id = st.conversation_id
    ∧ (do_round r st s).1.response_status = .Failed m
    ∧ (do_round r st s).1.receiving_message = false := by
  have htb : r.text.isEmpty = false := by
    rw [Bool.eq_false_iff]
    intro hempty
    exact ht ((String.isEmpty_iff r.text).mp hempty)
  cases hI : (r.image.getD "").isEmpty <;>
    simp [do_round, UIState.submit_message, htb, hI, hg, hr, handle_received,
      process_failure, Gemini.send_result_update, TextField.mk_new, TextField.get_content,
      List.getLast?_concat, List.dropLast_concat]

/-- Witness for C3: Scenario B — submit "Hello", backend fails with
"quota exceeded". -/
theorem C3_witness :
    (do_round ⟨"Hello", none, .error (.StringMsg "quota exceeded"),
        ⟨"c000000001", "r000000001", "i000000001", "b000000001", "", ""⟩, 1, 2, none, none⟩
      { defaultUI with gemini := some (Gemini.new_default_model "k") } Store.empty).2 = Store.empty
    ∧ (do_round ⟨"Hello", none, .error (.StringMsg "quota exceeded"),
        ⟨"c000000001", "r000000001", "i000000001", "b000000001", "", ""⟩, 1, 2, none, none⟩
      { defaultUI with gemini := some (Gemini.new_default_model "k") }
        Store.empty).1.chat_show.chat_history = [⟨false, Sender.User "", "Hello", 1⟩]
    ∧ (do_round ⟨"Hello", none, .error (.StringMsg "quota exceeded"),
        ⟨"c000000001", "r000000001", "i000000001", "b000000001", "", ""⟩, 1, 2, none, none⟩
      { defaultUI with gemini := some (Gemini.new_default_model "k") }
        Store.empty).1.conversation_id = ""
    ∧ (do_round ⟨"Hello", none, .error (.StringMsg "quota exceeded"),
        ⟨"c000000001", "r000000001", "i000000001", "b000000001", "", ""⟩, 1, 2, none, none⟩
      { defaultUI with gemini := some (Gemini.new_default_model "k") }
        Store.empty).1.response_status = .Failed "quota exceeded"
    ∧ (do_round ⟨"Hello", none, .error (.StringMsg "quota exceeded"),
        ⟨"c000000001", "r000000001", "i000000001", "b000000001", "", ""⟩, 1, 2, none, none⟩
      { defaultUI with gemini := some (Gemini.new_default_model "k") }
        Store.empty).1.receiving_message = false := by
  have h := C3_failure_round
    ⟨"Hello", none, .error (.StringMsg "quota exceeded"),
      ⟨"c000000001", "r000000001", "i000000001", "b000000001", "", ""⟩, 1, 2, none, none⟩
    { defaultUI with gemini := some (Gemini.new_default_model "k") } Store.empty
    (Gemini.new_default_model "k") "quota exceeded" rfl (by decide) rfl
  simpa using h

theorem do_round_conversation_id (r : Round) (st : UIState) (s : Store) (g : Gemini)
    (hg : st.gemini = some g) (ht : r.text ≠ "") :
    ((do_round r st s).1.conversation_id =
      match r.result with
      | .ok _ => if st.conversation_id = "" then r.fresh.conv_id else st.conversation_id
      | .error _ => st.conversation_id)
    ∧ (do_round r st s).1.receiving_message = false
    ∧ ∃ g2, (do_round r st s).1.gemini = some g2 := by
  have htb : r.text.isEmpty = false := by
    rw [Bool.eq_false_iff]
    intro hempty
    exact ht ((String.isEmpty_iff r.text).mp hempty)
  cases hI : (r.image.getD "").isEmpty <;> cases hr : r.result <;>
    by_cases hc : st.conversation_id = "" <;>
    simp [do_round, UIState.submit_message, htb, hI, hg, hr, hc, handle_received,
      process_success, process_failure, Gemini.send_result_update,
      TextField.mk_new, TextField.get_content, String.isEmpty_iff,
      List.getLast?_concat, List.dropLast_concat] <;>
    by_cases htl : st.title = "" <;> cases hgt : st.gen_title_ing <;>
    (try simp [htl, hgt, List.getLast?_concat])

theorem do_rounds_conversation_id (rs : List Round) (st : UIState) (s : Store)
    (hg : ∃ g, st.gemini = some g)
    (htexts : ∀ r ∈ rs, r.text ≠ "")
    (hids : ∀ r ∈ rs, r.fresh.conv_id ≠ "") :
    (do_rounds rs st s).1.conversation_id =
      if st.conversation_id = "" then first_success_conv_id rs
      else st.conversation_id := by
  induction rs generalizing st s with
  | nil =>
      simp only [do_rounds, first_success_conv_id]
      by_cases hc : st.conversation_id = ""
      · rw [if_pos hc, hc]
      · rw [if_neg hc]
  | cons r rest ih =>
      obtain ⟨g, hg⟩ := hg
      obtain ⟨hcid, hrecv, g2, hg2⟩ :=
        do_round_conversation_id r st s g hg (htexts r (List.mem_cons_self r rest))
      have htail1 : ∀ j ∈ rest, j.text ≠ "" :=
        fun j hj => htexts j (List.mem_cons_of_mem r hj)
      have htail2 : ∀ j ∈ rest, j.fresh.conv_id ≠ "" :=
        fun j hj => hids j (List.mem_cons_of_mem r hj)
      rw [show do_rounds (r :: rest) st s =
        do_rounds rest (do_round r st s).1 (do_round r st s).2 from rfl]
      rw [ih (do_round r st s).1 (do_round r st s).2 ⟨g2, hg2⟩ htail1 htail2]
      cases hres : r.result with
      | ok v =>
          rw [hres] at hcid
          simp only [] at hcid
          by_cases hc : st.conversation_id = ""
          · rw [if_pos hc] at hcid
            have hne : r.fresh.conv_id ≠ "" := hids r (List.mem_cons_self r rest)
            rw [hcid, if_neg hne, if_pos hc]
            simp [first_success_conv_id, hres]
          · rw [if_neg hc] at hcid
            rw [hcid, if_neg hc, if_neg hc]
      | error e =>
          rw [hres] at hcid
          simp only [] at hcid
          rw [hcid]
          by_cases hc : st.conversation_id = ""
          · rw [if_pos hc, if_pos hc]
            simp [first_success_conv_id, hres]
          · rw [if_neg hc, if_neg hc]

theorem first_success_conv_id_ne (rs : List Round) :
    (∀ r ∈ rs, r.fresh.conv_id ≠ "") →
    (first_success_conv_id rs ≠ "" ↔ ∃ r ∈ rs, ∃ v, r.result = .ok v) := by
  induction rs with
  | nil =>
      intro _
      simp [first_success_conv_id]
  | cons r rest ih =>
      intro hids
      have htail : ∀ j ∈ rest, j.fresh.conv_id ≠ "" :=
        fun j hj => hids j (List.mem_cons_of_mem r hj)
      cases hres : r.result with
      | ok v =>
          have hne := hids r (List.mem_cons_self r rest)
          simp only [first_success_conv_id, hres]
          constructor
          · intro _
            exact ⟨r, List.mem_cons_self r rest, v, hres⟩
          · intro _
            exact hne
      | error e =>
          simp only [first_success_conv_id, hres]
          rw [ih htail]
          constructor
          · rintro ⟨j, hj, v, hv⟩
            exact ⟨j, List.mem_cons_of_mem r hj, v, hv⟩
          · rintro ⟨j, hj, v, hv⟩
            rcases List.mem_cons.mp hj with rfl | hj2
            · rw [hres] at hv
              exact absurd hv (by simp)
            · exact ⟨j, hj2, v, hv⟩

/-- Claim C1: within one session (created with an empty conversation id and a
live client), across any sequence of submit/complete rounds the conversation
id always equals the id generated at the first successful completion (and
stays empty while none succeeded): it is generated exactly once, while still
empty, by the success branch — nanoid ids have length 10, hence are non-empty
— and the failure branch never assigns it.  Consequently the id is non-empty
iff at least one round trip has succeeded for the session. -/
theorem C1_conversation_id (rs : List Round) (st : UIState) (s : Store)
    (hg : ∃ g, st.gemini = some g)
    (hempty : st.conversation_id = "")
    (htexts : ∀ r ∈ rs, r.text ≠ "")
    (hids : ∀ r ∈ rs, r.fresh.conv_id.length = 10) :
    (do_rounds rs st s).1.conversation_id = first_success_conv_id rs
    ∧ ((do_rounds rs st s).1.conversation_id ≠ "" ↔ ∃ r ∈ rs, ∃ v, r.result = .ok v) := by
  have hids' : ∀ r ∈ rs, r.fresh.conv_id ≠ "" :=
    fun r hr => length_ten_ne_empty _ (hids r hr)
  have h1 := do_rounds_conversation_id rs st s hg htexts hids'
  rw [hempty, if_pos rfl] at h1
  exact ⟨h1, by rw [h1]; exact first_success_conv_id_ne rs hids'⟩

/-- Witness for C1: a failed round followed by a successful one. -/
theorem C1_witness :
    (do_rounds
      ([⟨"Hi", none, .error (.StringMsg "boom"),
          ⟨"aaaaaaaaaa", "r1r1r1r1r1", "i1i1i1i1i1", "b1b1b1b1b1", "", ""⟩, 1, 2, none, none⟩,
        ⟨"Again", none, .ok "Hello there",
          ⟨"cccccccccc", "r2r2r2r2r2", "i2i2i2i2i2", "b2b2b2b2b2", "", ""⟩, 3, 4, none, none⟩] : List Round)
      { defaultUI with gemini := some (Gemini.new_default_model "k") } Store.empty).1.conversation_id =
      first_success_conv_id
        ([⟨"Hi", none, .error (.StringMsg "boom"),
            ⟨"aaaaaaaaaa", "r1r1r1r1r1", "i1i1i1i1i1", "b1b1b1b1b1", "", ""⟩, 1, 2, none, none⟩,
          ⟨"Again", none, .ok "Hello there",
            ⟨"cccccccccc", "r2r2r2r2r2", "i2i2i2i2i2", "b2b2b2b2b2", "", ""⟩, 3, 4, none, none⟩] : List Round)
    ∧ ((do_rounds
      ([⟨"Hi", none, .error (.StringMsg "boom"),
          ⟨"aaaaaaaaaa", "r1r1r1r1r1", "i1i1i1i1i1", "b1b1b1b1b1", "", ""⟩, 1, 2, none, none⟩,
        ⟨"Again", none, .ok "Hello there",
          ⟨"cccccccccc", "r2r2r2r2r2", "i2i2i2i2i2", "b2b2b2b2b2", "", ""⟩, 3, 4, none, none⟩] : List Round)
      { defaultUI with gemini := some (Gemini.new_default_model "k") } Store.empty).1.conversation_id ≠ "" ↔
      ∃ r ∈ ([⟨"Hi", none, .error (.StringMsg "boom"),
          ⟨"aaaaaaaaaa", "r1r1r1r1r1", "i1i1i1i1i1", "b1b1b1b1b1", "", ""⟩, 1, 2, none, none⟩,
        ⟨"Again", none, .ok "Hello there",
          ⟨"cccccccccc", "r2r2r2r2r2", "i2i2i2i2i2", "b2b2b2b2b2", "", ""⟩, 3, 4, none, none⟩] : List Round),
        ∃ v, r.result = .ok v) :=
  C1_conversation_id _ _ Store.empty ⟨Gemini.new_default_model "k", rfl⟩ rfl
    (by intro r hr; fin_cases hr <;> decide)
    (by intro r hr; fin_cases hr <;> decide)

theorem se_show_and_hide (st : UIState) :
    (st.show_and_hide_sidebar).should_exit = st.should_exit := by
  simp only [UIState.show_and_hide_sidebar]
  split <;> rfl

theorem se_next_component (st : UIState) :
    (st.next_component).should_exit = st.should_exit := by
  simp only [UIState.next_component]
  split <;> rfl

theorem se_new_conversation (st : UIState) :
    (st.new_conversation).should_exit = st.should_exit := by
  simp only [UIState.new_conversation]
  split <;> rfl

theorem se_make_title_editable (st : UIState) :
    (st.make_title_editable).should_exit = st.should_exit := by
  simp only [UIState.make_title_editable]
  split <;> rfl

theorem se_show_image_input (st : UIState) :
    (st.show_image_input).should_exit = st.should_exit := by
  simp only [UIState.show_image_input]
  split <;> rfl

theorem se_restore (st : UIState) (cfg : Option StoreData) (env_key key : Option String) :
    (st.restore_or_new_gemini cfg env_key key).should_exit = st.should_exit := by
  unfold UIState.restore_or_new_gemini UIState.init_gemini
  cases cfg with
  | some sd => cases hg : st.gemini <;> rfl
  | none => cases key <;> cases env_key <;> rfl

theorem se_save_title (st : UIState) (b : Bool) (s : Store) :
    (st.save_title b s).1.should_exit = st.should_exit := by
  cases hte : st.title_editor_input_field <;> simp [UIState.save_title, hte]

theorem se_submit (st : UIState) (ext : KeyExt) (now : Nat) :
    (st.submit_message ext now).1.should_exit = st.should_exit := by
  simp only [UIState.submit_message]
  split
  · split
    · simp [se_restore]
    · split <;> rfl
  · rfl

theorem se_load_selected (ext : KeyExt) (st : UIState) :
    (load_selected_conversation ext st).should_exit = st.should_exit := by
  unfold load_selected_conversation
  cases ext.rebuilt with
  | none => rfl
  | some conversation => cases hg : st.gemini <;> rfl

theorem process_success_should_exit (fresh : FreshIds) (now : Nat) (response : String)
    (st : UIState) (s : Store) :
    (process_success fresh now response st s).1.should_exit = st.should_exit := by
  unfold process_success
  cases hc : st.conversation_id.isEmpty <;> simp [hc] <;>
    by_cases ht : st.title.isEmpty = true ∧ st.gen_title_ing = false <;> simp [ht] <;>
      cases st.chat_show.chat_history.getLast? <;> simp

theorem process_failure_should_exit (e : ApiError) (st : UIState) (s : Store) :
    (process_failure e st s).1.should_exit = st.should_exit := by
  unfold process_failure
  cases hL : st.chat_show.chat_history.getLast? <;> simp [hL]

theorem se_handle_received (req : ChatType) (result : Except ApiError String)
    (fresh : FreshIds) (now : Nat) (st : UIState) (s : Store) :
    (handle_received req result fresh now st s).1.should_exit = st.should_exit := by
  unfold handle_received
  cases result with
  | ok response =>
      simp only []
      rw [process_success_should_exit]
  | error e =>
      simp only []
      rw [process_failure_should_exit]

theorem exit_title_edit (k : KeyEvent) (b : Bool) (st : UIState) (s : Store)
    (h : (handle_title_edit_key_event k b st s).1.should_exit = true) :
    st.should_exit = true ∨ k.code = KeyCode.Esc := by
  cases hte : st.title_editor_input_field with
  | none =>
      rw [handle_title_edit_key_event, hte] at h
      exact Or.inl h
  | some ed =>
      rw [handle_title_edit_key_event, hte] at h
      cases hk : k.code <;> simp only [hk] at h <;>
        first
          | exact Or.inl h
          | exact Or.inr rfl
          | (rw [se_save_title] at h; exact Or.inl h)
          | (split at h <;> first
              | (rw [se_save_title] at h; exact Or.inl h)
              | exact Or.inl h)

theorem exit_input_common (k : KeyEvent) (ext : KeyExt) (now : Nat) (st : UIState)
    (h : (handle_input_key_event_common k ext now st).1.should_exit = true) :
    st.should_exit = true ∨ k.code = KeyCode.Esc := by
  rw [handle_input_key_event_common] at h
  cases hk : k.code <;> simp only [hk] at h <;>
    first
      | exact Or.inl h
      | exact Or.inr rfl
      | (rw [se_show_and_hide] at h; exact Or.inl h)
      | (rw [se_next_component] at h; exact Or.inl h)
      | (rw [se_submit] at h; exact Or.inl h)
      | (split at h <;> (try split at h) <;> (try split at h) <;> (try split at h) <;>
          first
            | (rw [se_show_and_hide] at h; exact Or.inl h)
            | (rw [se_show_image_input] at h; exact Or.inl h)
            | (rw [se_make_title_editable] at h; exact Or.inl h)
            | (rw [se_submit] at h; exact Or.inl h)
            | (rw [se_next_component] at h; exact Or.inl h)
            | exact Or.inl h)

theorem exit_input (k : KeyEvent) (ext : KeyExt) (now : Nat) (st : UIState)
    (h : (handle_input_key_event k ext now st).1.should_exit = true) :
    st.should_exit = true ∨ k.code = KeyCode.Esc := by
  cases hp : st.image_url_input_popup with
  | none =>
      rw [handle_input_key_event, hp] at h
      exact exit_input_common k ext now st h
  | some popup =>
      rw [handle_input_key_event, hp] at h
      rcases hev : (popup.handle_key k).2 with res | _ | _ <;> simp only [hev] at h <;>
        exact Or.inl h

theorem exit_new_chat (k : KeyEvent) (st : UIState)
    (h : (handle_new_chat_key_event k st).should_exit = true) :
    st.should_exit = true ∨ k.code = KeyCode.Esc := by
  rw [handle_new_chat_key_event] at h
  cases hk : k.code <;> simp only [hk] at h <;>
    first
      | exact Or.inl h
      | exact Or.inr rfl
      | (rw [se_show_and_hide] at h; exact Or.inl h)
      | (rw [se_next_component] at h; exact Or.inl h)
      | (rw [se_new_conversation] at h; exact Or.inl h)
      | (split at h <;>
          first
            | (rw [se_show_and_hide] at h; exact Or.inl h)
            | exact Or.inl h)

theorem exit_setting_button (k : KeyEvent) (st : UIState)
    (h : (handle_setting_button_key_event k st).should_exit = true) :
    st.should_exit = true ∨ k.code = KeyCode.Esc := by
  rw [handle_setting_button_key_event] at h
  cases hk : k.code <;> simp only [hk] at h <;>
    first
      | exact Or.inl h
      | exact Or.inr rfl
      | (rw [se_show_and_hide] at h; exact Or.inl h)
      | (rw [se_next_component] at h; exact Or.inl h)
      | (split at h <;>
          first
            | (rw [se_show_and_hide] at h; exact Or.inl h)
            | exact Or.inl h)

theorem exit_chat_show (k : KeyEvent) (st : UIState)
    (h : (handle_chat_show_key_event k st).should_exit = true) :
    st.should_exit = true ∨ k.code = KeyCode.Esc := by
  rw [handle_chat_show_key_event] at h
  cases hk : k.code <;> simp only [hk] at h <;>
    first
      | exact Or.inl h
      | exact Or.inr rfl
      | (rw [se_show_and_hide] at h; exact Or.inl h)
      | (rw [se_next_component] at h; exact Or.inl h)
      | (split at h <;> (try split at h) <;>
          first
            | (rw [se_show_and_hide] at h; exact Or.inl h)
            | (rw [se_make_title_editable] at h; exact Or.inl h)
            | exact Or.inl h)

theorem exit_chat_list (k : KeyEvent) (ext : KeyExt) (st : UIState) (s : Store)
    (h : (handle_chat_list_key_event k ext st s).1.should_exit = true) :
    st.should_exit = true ∨ k.code = KeyCode.Esc := by
  rw [handle_chat_list_key_event] at h
  cases hk : k.code <;> simp only [hk] at h
  case Esc => exact Or.inr rfl
  case Char c =>
      split at h
      · rw [se_show_and_hide] at h; exact Or.inl h
      · exact Or.inl h
  case F n =>
      split at h
      · rw [se_show_and_hide] at h; exact Or.inl h
      · exact Or.inl h
  case Tab =>
      rcases hp : st.chat_item_list.popup_delete_confirm_dialog with _ | popup <;>
        simp only [hp] at h
      · rw [se_next_component] at h; exact Or.inl h
      · exact Or.inl h
  case Up => exact Or.inl h
  case Down => exact Or.inl h
  case Delete => exact Or.inl h
  case Enter =>
      rcases hp : st.chat_item_list.popup_delete_confirm_dialog with _ | popup <;>
        simp only [hp] at h
      · rw [se_load_selected] at h; exact Or.inl h
      · split at h
        · split at h <;>
            first
              | (rw [se_new_conversation] at h; exact Or.inl h)
              | exact Or.inl h
        · exact Or.inl h
  all_goals exact Or.inl h

theorem exit_handle_key (k : KeyEvent) (ext : KeyExt) (now : Nat) (st : UIState) (s : Store)
    (h : (handle_key_event k ext now st s).1.should_exit = true) :
    st.should_exit = true ∨ k.code = KeyCode.Esc := by
  unfold handle_key_event at h
  split at h
  · exact exit_title_edit k ext.rename_fails st s h
  · cases hf : st.focus_component <;> rw [hf] at h
    · exact exit_input k ext now st h
    · exact exit_new_chat k st h
    · exact exit_chat_list k ext st s h
    · exact exit_setting_button k st h
    · exact exit_chat_show k st h

theorem exit_dispatch_window (tick : LoopTick) (st : UIState) (s : Store)
    (hfalse : st.should_exit = false)
    (htrue : (dispatch_window tick st s).1.should_exit = true) :
    ∃ k now, tick.action = .key k now ∧ k.code = KeyCode.Esc := by
  unfold dispatch_window at htrue
  cases hw : st.current_windows
  case MainWindow =>
      cases hrec : st.receiving_message <;> cases ha : tick.action <;>
        simp only [hw, hrec, ha, if_true, if_false, Bool.false_eq_true] at htrue
      case false.key k now =>
          rcases exit_handle_key k tick.ext now st s htrue with hleft | hesc
          · rw [hfalse] at hleft; exact absurd hleft (by decide)
          · exact ⟨k, now, rfl, hesc⟩
      case true.recv req result fresh now =>
          rw [se_handle_received] at htrue
          rw [hfalse] at htrue
          exact absurd htrue (by decide)
      all_goals
        (exact absurd (show st.should_exit = true from htrue) (by rw [hfalse]; decide))
  case SettingWindow a b =>
      cases ha2 : a <;> cases hb2 : b <;> cases ha : tick.action <;>
        simp only [hw, ha2, hb2, ha, if_true, if_false, Bool.false_eq_true] at htrue <;>
        first
          | (rw [se_restore] at htrue; rw [hfalse] at htrue; exact absurd htrue (by decide))
          | (exact absurd (show st.should_exit = true from htrue) (by rw [hfalse]; decide))

/-- Claim C4 (counterexample): a loop iteration in which the title summarizer
delivered a title and the `modify_title` store write fails terminates the run
loop with an error, although the exit flag was never set — the claim that no
collaborator error is fatal is false. -/
theorem C4_counterexample :
    defaultUI.should_exit = false
    ∧ run_iteration ⟨some "T", true, true, ⟨none, none, false, none, fun _ => none, fun _ => none⟩,
        .draw_only⟩ defaultUI Store.empty = .error "persistence error" :=
  ⟨rfl, rfl⟩

/-- Claim C4 (amended): per-iteration error policy of the main loop.  A tick
with no pending title message and a non-panicking completion never raises an
error — completion handling discards persistence-write results, the failure
branch only surfaces the backend error in the status field, and every key
path is total.  Two collaborator failures are fatal: a tick whose title poll
succeeds runs `modify_title(..)?`, whose failure propagates out of `run` and
terminates the loop, and a completion whose persist path must encode an
attached image panics when the encoding fails (the unwrap at db_utils.rs
line 195), aborting the process.  Among non-erroring iterations the exit
flag can only be raised by a key event whose code is Esc. -/
theorem C4_amended (tick : LoopTick) (st : UIState) (s : Store) :
    (tick.title_msg = none → completion_panics tick st = false →
      ∃ out, run_iteration tick st s = .ok out)
    ∧ (∀ t, tick.title_msg = some t → tick.rename_fails = true →
        run_iteration tick st s = .error "persistence error")
    ∧ (tick.title_msg = none → completion_panics tick st = true →
        run_iteration tick st s = .error image_encode_panic)
    ∧ (∀ st' s', run_iteration tick st s = .ok (st', s') →
        st.should_exit = false → st'.should_exit = true →
        ∃ k now, tick.action = .key k now ∧ k.code = KeyCode.Esc) := by
  refine ⟨?_, ?_, ?_, ?_⟩
  · intro htm hnp
    unfold run_iteration
    rw [htm]
    simp only [pure, Except.pure, bind, Except.bind, hnp, Bool.false_eq_true,
      if_false]
    exact ⟨_, rfl⟩
  · intro t htm hrf
    unfold run_iteration
    rw [htm]
    simp [modify_title, hrf, bind, Except.bind]
  · intro htm hp
    unfold run_iteration
    rw [htm]
    simp only [pure, Except.pure, bind, Except.bind, hp, if_true]
  · intro st' s' hok hfalse htrue
    unfold run_iteration at hok
    cases htm : tick.title_msg with
    | none =>
        rw [htm] at hok
        simp only [pure, Except.pure, bind, Except.bind] at hok
        split at hok
        · exact absurd hok (by simp)
        · simp only [Except.ok.injEq] at hok
          refine exit_dispatch_window tick st s hfalse ?_
          rw [hok]
          exact htrue
    | some t =>
        rw [htm] at hok
        cases hrf : tick.rename_fails with
        | true =>
            rw [hrf] at hok
            simp [modify_title, bind, Except.bind] at hok
        | false =>
            rw [hrf] at hok
            simp only [modify_title, if_false, Bool.false_eq_true, pure, Except.pure,
              bind, Except.bind] at hok
            split at hok
            · exact absurd hok (by simp)
            · simp only [Except.ok.injEq] at hok
              refine exit_dispatch_window tick
                { st with gen_title_ing := false, title := t }
                { s with conversations := s.conversations.map (fun r =>
                    if r.conversation_id == st.conversation_id then
                      { r with conversation_title := t } else r) }
                hfalse ?_
              rw [hok]
              exact htrue

/-- Witness for C4_amended: a title-free non-panicking tick runs without
error; a tick with an arrived title and a failing rename terminates the
loop; and a completion persisting an image-bearing turn whose encoding fails
aborts. -/
theorem C4_witness :
    (∃ out, run_iteration ⟨none, false, true, ⟨none, none, false, none, fun _ => none, fun _ => none⟩,
        .draw_only⟩ defaultUI Store.empty = .ok out)
    ∧ run_iteration ⟨some "T", true, true, ⟨none, none, false, none, fun _ => none, fun _ => none⟩,
        .draw_only⟩ defaultUI Store.empty = .error "persistence error"
    ∧ run_iteration ⟨none, false, false, ⟨none, none, false, none, fun _ => none, fun _ => none⟩,
        .recv (ChatType.Image "Hi" "img.png") (.ok "resp")
          ⟨"c000000001", "r000000001", "i000000001", "b000000001", "", ""⟩ 2⟩
        { defaultUI with
          receiving_message := true,
          chat_show := ⟨[⟨true, Sender.User "img.png", "Hi", 1⟩], 0, 0⟩ }
        Store.empty = .error image_encode_panic :=
  ⟨(C4_amended _ defaultUI Store.empty).1 rfl rfl,
   (C4_amended _ defaultUI Store.empty).2.1 "T" rfl rfl,
   (C4_amended _
      { defaultUI with
        receiving_message := true,
        chat_show := ⟨[⟨true, Sender.User "img.png", "Hi", 1⟩], 0, 0⟩ }
      Store.empty).2.2.1 rfl rfl⟩

/-- Claim C7 (counterexample): with the delete-confirmation dialog open over
the chat list, pressing Esc is not consumed by the overlay — it raises the
exit flag, a non-overlay mutation. -/
theorem C7_counterexample :
    ({ defaultUI with
        focus_component := .ChatItemList,
        chat_item_list := ⟨true, 0, [⟨"abc", "t"⟩], some ⟨false⟩⟩ } :
      UIState).chat_item_list.popup_delete_confirm_dialog.isSome = true
    ∧ ({ defaultUI with
        focus_component := .ChatItemList,
        chat_item_list := ⟨true, 0, [⟨"abc", "t"⟩], some ⟨false⟩⟩ } :
      UIState).should_exit = false
    ∧ (handle_chat_list_key_event ⟨.Esc, false⟩
        ⟨none, none, false, none, fun _ => none, fun _ => none⟩
        { defaultUI with
          focus_component := .ChatItemList,
          chat_item_list := ⟨true, 0, [⟨"abc", "t"⟩], some ⟨false⟩⟩ }
        Store.empty).1.should_exit = true :=
  ⟨rfl, rfl, rfl⟩

/-- Claim C7 (amended): the path-entry popup, while active, consumes every key
event — nothing is sent on the chat channel and only the popup itself and
(on Enter-commit) the image path change, so focus target, exit flag,
transcript, list and receiving flag are untouched and closing it leaves the
focus unchanged.  The delete-confirmation dialog intercepts only Tab (cycling
its button and touching nothing else) and Enter (committing its choice:
cancel merely closes the dialog, leaving everything else including the focus
unchanged); all other keys act on the underlying list and global state as if
no dialog were open. -/
theorem C7_amended :
    (∀ (k : KeyEvent) (ext : KeyExt) (now : Nat) (st : UIState) (p : InputPopup),
      st.image_url_input_popup = some p →
        (handle_input_key_event k ext now st).2 = none
        ∧ (handle_input_key_event k ext now st).1.focus_component = st.focus_component
        ∧ (handle_input_key_event k ext now st).1.should_exit = st.should_exit
        ∧ (handle_input_key_event k ext now st).1.chat_show = st.chat_show
        ∧ (handle_input_key_event k ext now st).1.chat_item_list = st.chat_item_list
        ∧ (handle_input_key_event k ext now st).1.receiving_message = st.receiving_message
        ∧ (handle_input_key_event k ext now st).1.conversation_id = st.conversation_id
        ∧ (handle_input_key_event k ext now st).1.input_field_component
            = st.input_field_component)
    ∧ (∀ (ctl : Bool) (ext : KeyExt) (st : UIState) (s : Store) (p : DeletePopup),
        st.chat_item_list.popup_delete_confirm_dialog = some p →
          handle_chat_list_key_event ⟨.Tab, ctl⟩ ext st s =
            ({ st with chat_item_list := { st.chat_item_list with
                popup_delete_confirm_dialog := some p.next_button } }, s))
    ∧ (∀ (ctl : Bool) (ext : KeyExt) (st : UIState) (s : Store) (p : DeletePopup),
        st.chat_item_list.popup_delete_confirm_dialog = some p →
          p.press = false →
          handle_chat_list_key_event ⟨.Enter, ctl⟩ ext st s =
            ({ st with chat_item_list := { st.chat_item_list with
                popup_delete_confirm_dialog := none } }, s)) := by
  refine ⟨?_, ?_, ?_⟩
  · intro k ext now st p hp
    cases hk : k.code <;>
      simp [handle_input_key_event, hp, InputPopup.handle_key, hk] <;>
      (try split) <;> simp
  · intro ctl ext st s p hp
    simp [handle_chat_list_key_event, hp]
  · intro ctl ext st s p hp hpress
    simp [handle_chat_list_key_event, hp, hpress]

/-- Witness for C7_amended: concrete overlay states. -/
theorem C7_witness :
    ((handle_input_key_event ⟨.Esc, false⟩
        ⟨none, none, false, none, fun _ => none, fun _ => none⟩ 0
        { defaultUI with image_url_input_popup := some (InputPopup.mk_new "x" 50 3) }).2 = none
      ∧ (handle_input_key_event ⟨.Esc, false⟩
        ⟨none, none, false, none, fun _ => none, fun _ => none⟩ 0
        { defaultUI with image_url_input_popup := some (InputPopup.mk_new "x" 50 3) }).1.focus_component
          = ({ defaultUI with image_url_input_popup := some (InputPopup.mk_new "x" 50 3) } : UIState).focus_component
      ∧ (handle_input_key_event ⟨.Esc, false⟩
        ⟨none, none, false, none, fun _ => none, fun _ => none⟩ 0
        { defaultUI with image_url_input_popup := some (InputPopup.mk_new "x" 50 3) }).1.should_exit
          = ({ defaultUI with image_url_input_popup := some (InputPopup.mk_new "x" 50 3) } : UIState).should_exit
      ∧ (handle_input_key_event ⟨.Esc, false⟩
        ⟨none, none, false, none, fun _ => none, fun _ => none⟩ 0
        { defaultUI with image_url_input_popup := some (InputPopup.mk_new "x" 50 3) }).1.chat_show
          = ({ defaultUI with image_url_input_popup := some (InputPopup.mk_new "x" 50 3) } : UIState).chat_show
      ∧ (handle_input_key_event ⟨.Esc, false⟩
        ⟨none, none, false, none, fun _ => none, fun _ => none⟩ 0
        { defaultUI with image_url_input_popup := some (InputPopup.mk_new "x" 50 3) }).1.chat_item_list
          = ({ defaultUI with image_url_input_popup := some (InputPopup.mk_new "x" 50 3) } : UIState).chat_item_list
      ∧ (handle_input_key_event ⟨.Esc, false⟩
        ⟨none, none, false, none, fun _ => none, fun _ => none⟩ 0
        { defaultUI with image_url_input_popup := some (InputPopup.mk_new "x" 50 3) }).1.receiving_message
          = ({ defaultUI with image_url_input_popup := some (InputPopup.mk_new "x" 50 3) } : UIState).receiving_message
      ∧ (handle_input_key_event ⟨.Esc, false⟩
        ⟨none, none, false, none, fun _ => none, fun _ => none⟩ 0
        { defaultUI with image_url_input_popup := some (InputPopup.mk_new "x" 50 3) }).1.conversation_id
          = ({ defaultUI with image_url_input_popup := some (InputPopup.mk_new "x" 50 3) } : UIState).conversation_id
      ∧ (handle_input_key_event ⟨.Esc, false⟩
        ⟨none, none, false, none, fun _ => none, fun _ => none⟩ 0
        { defaultUI with image_url_input_popup := some (InputPopup.mk_new "x" 50 3) }).1.input_field_component
          = ({ defaultUI with image_url_input_popup := some (InputPopup.mk_new "x" 50 3) } : UIState).input_field_component)
    ∧ handle_chat_list_key_event ⟨.Enter, false⟩
        ⟨none, none, false, none, fun _ => none, fun _ => none⟩
        { defaultUI with chat_item_list := ⟨true, 0, [], some ⟨false⟩⟩ } Store.empty =
        ({ defaultUI with chat_item_list := ⟨true, 0, [], none⟩ }, Store.empty) :=
  ⟨C7_amended.1 ⟨.Esc, false⟩ ⟨none, none, false, none, fun _ => none, fun _ => none⟩ 0
      { defaultUI with image_url_input_popup := some (InputPopup.mk_new "x" 50 3) }
      (InputPopup.mk_new "x" 50 3) rfl,
   C7_amended.2.2 false ⟨none, none, false, none, fun _ => none, fun _ => none⟩
      { defaultUI with chat_item_list := ⟨true, 0, [], some ⟨false⟩⟩ } Store.empty ⟨false⟩ rfl rfl⟩

theorem inv_transfer {st st2 : UIState}
    (hsh : st2.chat_item_list.shown = st.chat_item_list.shown)
    (hf : st2.focus_component = st.focus_component)
    (h : SidebarInv st) : SidebarInv st2 := by
  intro hh
  rw [hf]
  exact h (by rw [← hsh]; exact hh)

theorem inv_show_and_hide (st : UIState) : SidebarInv st.show_and_hide_sidebar := by
  unfold UIState.show_and_hide_sidebar
  by_cases hs : st.chat_item_list.shown = true <;>
    cases hf : st.focus_component <;> simp [hs, hf, Bool.not_eq_true] at * <;> simp [hs]

theorem inv_next_component (st : UIState) : SidebarInv st.next_component := by
  unfold UIState.next_component
  by_cases hs : st.chat_item_list.shown = true <;>
    cases hf : st.focus_component <;> simp [hs, hf, Bool.not_eq_true] at * <;> simp [hs]

theorem inv_new_conversation (st : UIState) : SidebarInv st.new_conversation :=
  fun _ => Or.inl rfl

theorem inv_load_selected (ext : KeyExt) (st : UIState) (h : SidebarInv st) :
    SidebarInv (load_selected_conversation ext st) := by
  unfold load_selected_conversation
  cases hr : ext.rebuilt with
  | none => exact h
  | some conversation =>
      cases hg : st.gemini <;> exact fun _ => Or.inr rfl

theorem sf_restore (st : UIState) (cfg : Option StoreData) (env_key key : Option String) :
    (st.restore_or_new_gemini cfg env_key key).chat_item_list.shown = st.chat_item_list.shown
    ∧ (st.restore_or_new_gemini cfg env_key key).focus_component = st.focus_component := by
  unfold UIState.restore_or_new_gemini UIState.init_gemini
  cases cfg with
  | some sd => cases hg : st.gemini <;> exact ⟨rfl, rfl⟩
  | none => cases key <;> cases env_key <;> exact ⟨rfl, rfl⟩

theorem sf_save_title (st : UIState) (b : Bool) (s : Store) :
    (st.save_title b s).1.chat_item_list.shown = st.chat_item_list.shown
    ∧ (st.save_title b s).1.focus_component = st.focus_component := by
  cases hte : st.title_editor_input_field <;> simp [UIState.save_title, hte]

theorem sf_submit (st : UIState) (ext : KeyExt) (now : Nat) :
    (st.submit_message ext now).1.chat_item_list.shown = st.chat_item_list.shown
    ∧ (st.submit_message ext now).1.focus_component = st.focus_component := by
  simp only [UIState.submit_message]
  split
  · split
    · simp [sf_restore]
    · split <;> exact ⟨rfl, rfl⟩
  · exact ⟨rfl, rfl⟩

theorem process_success_shown_focus (fresh : FreshIds) (now : Nat) (response : String)
    (st : UIState) (s : Store) :
    (process_success fresh now response st s).1.chat_item_list.shown = st.chat_item_list.shown
    ∧ (process_success fresh now response st s).1.focus_component = st.focus_component := by
  unfold process_success
  cases hc : st.conversation_id.isEmpty <;> simp [hc] <;>
    by_cases ht : st.title.isEmpty = true ∧ st.gen_title_ing = false <;> simp [ht] <;>
      cases st.chat_show.chat_history.getLast? <;> simp

theorem process_failure_shown_focus (e : ApiError) (st : UIState) (s : Store) :
    (process_failure e st s).1.chat_item_list.shown = st.chat_item_list.shown
    ∧ (process_failure e st s).1.focus_component = st.focus_component := by
  unfold process_failure
  cases hL : st.chat_show.chat_history.getLast? <;> simp [hL]

theorem sf_handle_received (req : ChatType) (result : Except ApiError String)
    (fresh : FreshIds) (now : Nat) (st : UIState) (s : Store) :
    (handle_received req result fresh now st s).1.chat_item_list.shown = st.chat_item_list.shown
    ∧ (handle_received req result fresh now st s).1.focus_component = st.focus_component := by
  unfold handle_received
  cases result with
  | ok response =>
      simp only []
      rw [(process_success_shown_focus fresh now response _ s).1,
        (process_success_shown_focus fresh now response _ s).2]
      exact ⟨rfl, rfl⟩
  | error e =>
      simp only []
      rw [(process_failure_shown_focus e _ s).1, (process_failure_shown_focus e _ s).2]
      exact ⟨rfl, rfl⟩

theorem sf_show_image_input (st : UIState) :
    (st.show_image_input).chat_item_list.shown = st.chat_item_list.shown
    ∧ (st.show_image_input).focus_component = st.focus_component := by
  unfold UIState.show_image_input
  split <;> exact ⟨rfl, rfl⟩

theorem sf_make_title_editable (st : UIState) :
    (st.make_title_editable).chat_item_list.shown = st.chat_item_list.shown
    ∧ (st.make_title_editable).focus_component = st.focus_component := by
  unfold UIState.make_title_editable
  split <;> exact ⟨rfl, rfl⟩

theorem shown_delete_item (l : ChatItemListScrollProps) (s : Store) :
    ((l.delete_item s).2.1).shown = l.shown := rfl

theorem shown_next_item (l : ChatItemListScrollProps) :
    (l.next_item).shown = l.shown := by
  unfold ChatItemListScrollProps.next_item
  split <;> rfl

theorem inv_title_edit (k : KeyEvent) (b : Bool) (st : UIState) (s : Store)
    (h : SidebarInv st) : SidebarInv (handle_title_edit_key_event k b st s).1 := by
  simp only [handle_title_edit_key_event]
  split
  · exact h
  · split <;> (try split) <;>
      first
        | exact h
        | exact inv_transfer (sf_save_title st b s).1 (sf_save_title st b s).2 h
        | exact inv_transfer rfl rfl h

set_option maxHeartbeats 1600000 in
theorem inv_input_common (k : KeyEvent) (ext : KeyExt) (now : Nat) (st : UIState)
    (h : SidebarInv st) : SidebarInv (handle_input_key_event_common k ext now st).1 := by
  have h2 : SidebarInv ({ st with response_status := ResponseStatus.None } : UIState) :=
    inv_transfer rfl rfl h
  simp only [handle_input_key_event_common]
  split <;> (try split) <;> (try split) <;> (try split) <;> (try split) <;>
    first
      | exact inv_show_and_hide _
      | exact inv_next_component _
      | exact inv_transfer (sf_submit _ ext now).1 (sf_submit _ ext now).2 h2
      | exact inv_transfer (sf_submit _ ext now).1 (sf_submit _ ext now).2 h
      | exact inv_transfer (sf_show_image_input _).1 (sf_show_image_input _).2 h2
      | exact inv_transfer (sf_show_image_input _).1 (sf_show_image_input _).2 h
      | exact inv_transfer (sf_make_title_editable _).1 (sf_make_title_editable _).2 h2
      | exact inv_transfer (sf_make_title_editable _).1 (sf_make_title_editable _).2 h
      | exact inv_transfer rfl rfl h2
      | exact inv_transfer rfl rfl h
      | exact h
      | exact h2

theorem inv_input (k : KeyEvent) (ext : KeyExt) (now : Nat) (st : UIState)
    (h : SidebarInv st) : SidebarInv (handle_input_key_event k ext now st).1 := by
  simp only [handle_input_key_event]
  split
  · split <;> exact inv_transfer rfl rfl h
  · exact inv_input_common k ext now st h

theorem inv_new_chat (k : KeyEvent) (st : UIState) (h : SidebarInv st) :
    SidebarInv (handle_new_chat_key_event k st) := by
  simp only [handle_new_chat_key_event]
  split <;> (try split) <;>
    first
      | exact inv_show_and_hide _
      | exact inv_next_component _
      | exact inv_new_conversation _
      | exact inv_transfer rfl rfl h
      | exact h

theorem inv_setting_button (k : KeyEvent) (st : UIState) (h : SidebarInv st) :
    SidebarInv (handle_setting_button_key_event k st) := by
  simp only [handle_setting_button_key_event]
  split <;> (try split) <;>
    first
      | exact inv_show_and_hide _
      | exact inv_next_component _
      | exact inv_transfer rfl rfl h
      | exact h

theorem inv_chat_show (k : KeyEvent) (st : UIState) (h : SidebarInv st) :
    SidebarInv (handle_chat_show_key_event k st) := by
  simp only [handle_chat_show_key_event]
  split <;> (try split) <;> (try split) <;>
    first
      | exact inv_show_and_hide _
      | exact inv_next_component _
      | exact inv_transfer (sf_make_title_editable _).1 (sf_make_title_editable _).2 h
      | exact inv_transfer rfl rfl h
      | exact h

theorem inv_chat_list (k : KeyEvent) (ext : KeyExt) (st : UIState) (s : Store)
    (h : SidebarInv st) : SidebarInv (handle_chat_list_key_event k ext st s).1 := by
  simp only [handle_chat_list_key_event]
  split <;> (try split) <;> (try split) <;> (try split) <;>
    first
      | exact inv_show_and_hide _
      | exact inv_next_component _
      | exact inv_load_selected ext st h
      | exact inv_transfer rfl rfl (inv_new_conversation _)
      | exact inv_transfer rfl rfl
          (inv_transfer (shown_delete_item st.chat_item_list s) rfl h)
      | exact inv_transfer (shown_next_item st.chat_item_list) rfl h
      | exact inv_transfer rfl rfl h
      | exact h

theorem inv_handle_key (k : KeyEvent) (ext : KeyExt) (now : Nat) (st : UIState) (s : Store)
    (h : SidebarInv st) : SidebarInv (handle_key_event k ext now st s).1 := by
  unfold handle_key_event
  split
  · exact inv_title_edit k ext.rename_fails st s h
  · cases hf : st.focus_component <;>
      first
        | exact inv_input k ext now st h
        | exact inv_new_chat k st h
        | exact inv_chat_list k ext st s h
        | exact inv_setting_button k st h
        | exact inv_chat_show k st h

theorem inv_dispatch_window (tick : LoopTick) (st : UIState) (s : Store)
    (h : SidebarInv st) : SidebarInv (dispatch_window tick st s).1 := by
  unfold dispatch_window
  cases hw : st.current_windows
  case MainWindow =>
      cases hrec : st.receiving_message <;> cases ha : tick.action <;>
        (try simp only [hrec, ha, if_true, if_false, Bool.false_eq_true]) <;>
        first
          | exact inv_transfer (sf_handle_received _ _ _ _ st s).1
              (sf_handle_received _ _ _ _ st s).2 h
          | exact inv_handle_key _ tick.ext _ st s h
          | exact h
  case SettingWindow a b =>
      cases ha2 : a <;> cases hb2 : b <;> cases ha : tick.action <;>
        (try simp only [ha2, hb2, ha, if_true, if_false, Bool.false_eq_true]) <;>
        first
          | exact inv_transfer rfl rfl
              (inv_transfer (sf_restore st tick.ext.cfg tick.ext.env_key none).1
                (sf_restore st tick.ext.cfg tick.ext.env_key none).2 h)
          | exact inv_transfer rfl rfl h
          | exact h

theorem inv_run_iteration (tick : LoopTick) (st : UIState) (s : Store)
    (st' : UIState) (s' : Store)
    (hok : run_iteration tick st s = .ok (st', s')) (h : SidebarInv st) : SidebarInv st' := by
  unfold run_iteration at hok
  cases htm : tick.title_msg with
  | none =>
      rw [htm] at hok
      simp only [pure, Except.pure, bind, Except.bind] at hok
      split at hok
      · exact absurd hok (by simp)
      · simp only [Except.ok.injEq] at hok
        have hd := inv_dispatch_window tick st s h
        rw [hok] at hd
        exact hd
  | some t =>
      rw [htm] at hok
      cases hrf : tick.rename_fails with
      | true =>
          rw [hrf] at hok
          simp [modify_title, bind, Except.bind] at hok
      | false =>
          rw [hrf] at hok
          simp only [modify_title, if_false, Bool.false_eq_true, pure, Except.pure,
            bind, Except.bind] at hok
          split at hok
          · exact absurd hok (by simp)
          · simp only [Except.ok.injEq] at hok
            have hd := inv_dispatch_window tick { st with gen_title_ing := false, title := t }
              { s with conversations := s.conversations.map (fun r =>
                  if r.conversation_id == st.conversation_id then
                    { r with conversation_title := t } else r) }
              (inv_transfer rfl rfl h)
            rw [hok] at hd
            exact hd

theorem inv_run_loop (ticks : List LoopTick) :
    ∀ (st : UIState) (s : Store) (st' : UIState) (s' : Store),
      run_loop ticks st s = .ok (st', s') → SidebarInv st → SidebarInv st' := by
  induction ticks with
  | nil =>
      intro st s st' s' hok h
      unfold run_loop at hok
      simp only [Except.ok.injEq, Prod.mk.injEq] at hok
      rw [← hok.1]
      exact h
  | cons t ts ih =>
      intro st s st' s' hok h
      unfold run_loop at hok
      split at hok
      · simp only [Except.ok.injEq, Prod.mk.injEq] at hok
        rw [← hok.1]
        exact h
      · cases hit : run_iteration t st s with
        | error e =>
            rw [hit] at hok
            simp [bind, Except.bind] at hok
        | ok out =>
            rw [hit] at hok
            simp only [bind, Except.bind] at hok
            exact ih out.1 out.2 st' s' hok
              (inv_run_iteration t st s out.1 out.2 (by rw [hit]) h)

/-- Claim C8: focus never points to a hidden component.  With the sidebar
hidden, the advance operation toggles only between the input field and the
transcript view (every sidebar target unreachable); hiding the sidebar while
focus sits on a sidebar component moves focus to the input field; and the
focus-safety invariant is preserved by every iteration of the main loop, so
it holds in every state reachable from one satisfying it (the initial state
does). -/
theorem C8_focus_never_hidden :
    (∀ st : UIState, st.chat_item_list.shown = false →
      (st.focus_component = .InputField → st.next_component.focus_component = .ChatShow)
      ∧ (st.focus_component = .ChatShow → st.next_component.focus_component = .InputField)
      ∧ (st.next_component.focus_component = .InputField
          ∨ st.next_component.focus_component = .ChatShow))
    ∧ (∀ st : UIState, st.chat_item_list.shown = true →
        (st.focus_component = .ChatItemList ∨ st.focus_component = .NewChatButton ∨
          st.focus_component = .SettingButton) →
        st.show_and_hide_sidebar.focus_component = .InputField
        ∧ st.show_and_hide_sidebar.chat_item_list.shown = false)
    ∧ (∀ (ticks : List LoopTick) (st : UIState) (s : Store) (st' : UIState) (s' : Store),
        run_loop ticks st s = .ok (st', s') → SidebarInv st → SidebarInv st') := by
  refine ⟨?_, ?_, inv_run_loop⟩
  · intro st hs
    unfold UIState.next_component
    refine ⟨?_, ?_, ?_⟩ <;> cases hf : st.focus_component <;> simp [hs, hf]
  · intro st hs hf
    unfold UIState.show_and_hide_sidebar
    rcases hf with hf | hf | hf <;> simp [hs, hf]

/-- Witness for C8: the default state has the sidebar hidden, advance lands on
the transcript, and the invariant holds of the state an empty run reaches. -/
theorem C8_witness :
    (defaultUI.chat_item_list.shown = false
      ∧ defaultUI.next_component.focus_component = .ChatShow)
    ∧ SidebarInv defaultUI :=
  ⟨⟨rfl, (C8_focus_never_hidden.1 defaultUI rfl).1 rfl⟩,
   C8_focus_never_hidden.2.2 [] defaultUI Store.empty defaultUI Store.empty rfl (by decide)⟩

end GeminiTui